import Mathlib

/-!
Shallow embedding of the Little-star backend (accounts, attendance, routines,
documents, policies, marks routes) and proofs about its authorization,
validation and persistence behaviour.

Conventions of the embedding:
* The JSON collection files become explicit `List` state threaded through each
  handler; a handler returns its outcome together with the collection content
  after the call (unchanged when it returns before the write).
* JSON body values that undergo `typeof` checks are modelled by `JVal`
  (JSON cannot carry `NaN` or `undefined`; absence of a field is `Option`).
* JavaScript truthiness on the checked fields: a string is falsy iff empty,
  a number is falsy iff 0, an absent field is falsy.
* Record identifiers and user ids are `Nat` (the code assigns them as
  `length + 1`); marks values are `ℚ` (JSON numbers).
-/

namespace LittleStar

/-- JSON-style values delivered by the transport layer. -/
inductive JVal where
  | num (q : ℚ)
  | str (s : String)
  | bool (b : Bool)
  | obj (fields : List (String × JVal))

/-- `typeof v === 'boolean'`. -/
def JVal.isBool : JVal → Bool
  | .bool _ => true
  | _ => false

/-- Truthiness of an optional string field (`!x` in the source). -/
def strTruthy : Option String → Bool
  | none => false
  | some s => !(s == "")

/-- Truthiness of an optional numeric field (`!x` in the source; 0 is falsy). -/
def natTruthy : Option Nat → Bool
  | none => false
  | some n => !(n == 0)

/-- A stored account record (`users.json`), from `accounts.js` signup.
The `section` field of the source is named `sec` (Lean keyword). -/
structure User where
  id : Nat
  email : String
  password : String
  userType : String
  sec : Option String
deriving DecidableEq

/-- `email.toLowerCase()`: `String.toLower` written structurally on the
character list so that it evaluates inside `decide`/`rfl` (it agrees with
`String.toLower` by `String.map_eq`). -/
def lowerStr (s : String) : String := ⟨s.data.map Char.toLower⟩

/-- `lowerStr` is `String.toLower`. -/
theorem lowerStr_eq_toLower (s : String) : lowerStr s = s.toLower :=
  (String.map_eq Char.toLower s).symm

/-- Abstract stand-in for the external bcryptjs hash: an injective encoding,
so that `bcryptCompare` succeeds exactly on the original password. -/
def bcryptHash (password : String) : String := String.append "bcrypt$" password

/-- `bcrypt.compare(password, stored)` for hashes produced by `bcryptHash`. -/
def bcryptCompare (password stored : String) : Bool := stored == bcryptHash password

/-- JWT payload minted by signup/signin (`section` field named `sec`). -/
structure Claims where
  id : Nat
  email : String
  userType : String
  sec : Option String
deriving DecidableEq

/-- Model of a signed JWT: the payload together with the secret it was signed
with and its expiry instant. Unforgeability of the external jsonwebtoken
library is modelled by verification comparing the recorded secret. -/
structure Token where
  claims : Claims
  secret : String
  exp : Nat
deriving DecidableEq

/-- `jwt.sign(payload, secret, { expiresIn: '1h' })` at instant `now`
(seconds). -/
def jwtSign (secret : String) (now : Nat) (c : Claims) : Token :=
  { claims := c, secret := secret, exp := now + 3600 }

/-- `jwt.verify(token, secret)` at instant `now`: claims iff the signature
matches and the token is not expired; the result carries no other data. -/
def jwtVerify (secret : String) (now : Nat) (t : Token) : Option Claims :=
  if t.secret = secret ∧ now < t.exp then some t.claims else none

/-- Outcome of an authenticate middleware. -/
inductive AuthResult (α : Type) where
  | noToken (msg : String)
  | invalid (msg : String)
  | ok (a : α)
deriving DecidableEq

/-- The local `authenticate` of `attendance.js`: verifies the JWT only and
exposes the decoded claims; no stored state is consulted. -/
def attendanceAuthenticate (secret : String) (now : Nat) (tok : Option Token) :
    AuthResult Claims :=
  match tok with
  | none => .noToken "No token provided"
  | some t =>
    match jwtVerify secret now t with
    | some c => .ok c
    | none => .invalid "Invalid token"

/-- The shared `middleware/middleware.js` authenticate: verifies the JWT and
then looks the decoded id up in the users collection, exposing the stored
user; an id absent from the collection is rejected like a bad token. -/
def middlewareAuthenticate (secret : String) (now : Nat) (tok : Option Token)
    (users : List User) : AuthResult User :=
  match tok with
  | none => .noToken "No token provided"
  | some t =>
    match jwtVerify secret now t with
    | none => .invalid "Invalid token"
    | some c =>
      match users.find? (fun u => u.id == c.id) with
      | none => .invalid "Invalid token"
      | some u => .ok u

/-- `calculateGrade` from the marks route. -/
def calculateGrade (marks : ℚ) : String :=
  if marks ≥ 90 then "A"
  else if marks ≥ 80 then "B"
  else if marks ≥ 70 then "C"
  else if marks ≥ 60 then "D"
  else "F"

/-! ## Accounts (`accounts.js`): signup and signin -/

/-- Request body of `POST /auth/signup` (`section` named `sec`). -/
structure SignupBody where
  email : Option String
  password : Option String
  userType : Option String
  sec : Option String

/-- Outcome of `POST /auth/signup`: a 400, or a 201 carrying the minted token
(the created record is also exposed for reasoning about the stored state). -/
inductive SignupResult where
  | invalid (msg : String)
  | created (token : Token) (newUser : User)
deriving DecidableEq

def VALID_USER_TYPES : List String := ["Admin", "Teacher", "Student"]

/-- `POST /auth/signup`: field checks, case-insensitive duplicate-email check,
then append with id `users.length + 1` and mint a 1-hour token whose payload
carries `section` exactly when the new user is a Student. -/
def signup (secret : String) (now : Nat) (body : SignupBody) (users : List User) :
    SignupResult × List User :=
  if ¬(strTruthy body.email ∧ strTruthy body.password ∧ strTruthy body.userType) then
    (.invalid "Email, password, and userType are required", users)
  else
    let email := body.email.getD ""
    let password := body.password.getD ""
    let userType := body.userType.getD ""
    if userType = "Student" ∧ ¬ strTruthy body.sec then
      (.invalid "Section is required for Students", users)
    else if ¬ VALID_USER_TYPES.contains userType then
      (.invalid "Invalid userType. Must be Admin, Teacher, or Student", users)
    else if users.any (fun u => lowerStr u.email == lowerStr email) then
      (.invalid "User already exists", users)
    else
      let newUser : User :=
        { id := users.length + 1
          email := email
          password := bcryptHash password
          userType := userType
          sec := if userType = "Student" then body.sec else none }
      let payload : Claims :=
        { id := newUser.id
          email := email
          userType := userType
          sec := if userType = "Student" then body.sec else none }
      (.created (jwtSign secret now payload) newUser, users ++ [newUser])

/-- Outcome of `POST /auth/signin`. -/
inductive SigninResult where
  | invalid (msg : String)
  | unauthorized (msg : String)
  | ok (token : Token)
deriving DecidableEq

/-- `POST /auth/signin`: finds the user by case-folded email, compares the
password hash, and mints a token whose payload is `{id, email, userType}`
only — no `section` claim is ever added here. Reads only; no state change. -/
def signin (secret : String) (now : Nat) (email password : Option String)
    (users : List User) : SigninResult :=
  if ¬(strTruthy email ∧ strTruthy password) then
    .invalid "Email and password are required"
  else
    let e := email.getD ""
    let p := password.getD ""
    match users.find? (fun u => lowerStr u.email == lowerStr e) with
    | none => .unauthorized "Invalid credentials"
    | some u =>
      if ¬ bcryptCompare p u.password then .unauthorized "Invalid credentials"
      else .ok (jwtSign secret now { id := u.id, email := u.email, userType := u.userType, sec := none })

/-! ## Routines (`routine.js`) -/

/-- A stored routine record (`routines.json`); `section` named `sec`. -/
structure Routine where
  id : Nat
  sec : String
  day : String
  time : String
  subject : String
  teacherId : Nat
deriving DecidableEq

/-- Request body of the routine create/update routes. -/
structure RoutineBody where
  sec : Option String
  day : Option String
  time : Option String
  subject : Option String
  teacherId : Option Nat

/-- Outcome of a routine write route (403 / 400 / 404 / success). -/
inductive RoutineWriteResult where
  | denied (msg : String)
  | invalid (msg : String)
  | notFound (msg : String)
  | created (r : Routine)
  | updated (r : Routine)
  | deleted (msg : String)
deriving DecidableEq

/-- Replace the first element satisfying `p` by `f` of it (the JS pattern of
mutating the record returned by `find` / indexing the `findIndex` result). -/
def updateFirst (p : α → Bool) (f : α → α) : List α → List α
  | [] => []
  | a :: as => if p a then f a :: as else a :: updateFirst p f as

/-- All five routine body fields truthy (`!section || !day || ...`). -/
def routineFieldsOk (b : RoutineBody) : Prop :=
  strTruthy b.sec ∧ strTruthy b.day ∧ strTruthy b.time ∧ strTruthy b.subject
    ∧ natTruthy b.teacherId

instance (b : RoutineBody) : Decidable (routineFieldsOk b) := by
  unfold routineFieldsOk; infer_instance

/-- The teacher foreign-key guard: `users.find(u => u.id === teacherId &&
u.userType === 'Teacher')` is truthy. -/
def teacherExists (users : List User) (teacherId : Nat) : Bool :=
  users.any fun u => u.id == teacherId && u.userType == "Teacher"

/-- `POST /routine` (authenticated caller is the stored user the middleware
looked up): Admin-only, all fields required, teacherId must denote a stored
Teacher; appends with id `routines.length + 1`. -/
def createRoutine (user : User) (body : RoutineBody) (users : List User)
    (routines : List Routine) : RoutineWriteResult × List Routine :=
  if user.userType ≠ "Admin" then
    (.denied "Only Admins can create routines", routines)
  else if ¬ routineFieldsOk body then
    (.invalid "All fields are required", routines)
  else
    let teacherId := body.teacherId.getD 0
    if ¬ teacherExists users teacherId then
      (.invalid "Invalid teacherId", routines)
    else
      let newRoutine : Routine :=
        { id := routines.length + 1
          sec := body.sec.getD ""
          day := body.day.getD ""
          time := body.time.getD ""
          subject := body.subject.getD ""
          teacherId := teacherId }
      (.created newRoutine, routines ++ [newRoutine])

/-- `PUT /routine/:id` (`idParam` is the parsed `:id`): same guards as create,
then replaces the record found by `findIndex(r => r.id === parseInt(id))`. -/
def updateRoutine (user : User) (idParam : Nat) (body : RoutineBody)
    (users : List User) (routines : List Routine) :
    RoutineWriteResult × List Routine :=
  if user.userType ≠ "Admin" then
    (.denied "Only Admins can update routines", routines)
  else if ¬ routineFieldsOk body then
    (.invalid "All fields are required", routines)
  else
    let teacherId := body.teacherId.getD 0
    if ¬ teacherExists users teacherId then
      (.invalid "Invalid teacherId", routines)
    else if ¬ routines.any (fun r => r.id == idParam) then
      (.notFound "Routine not found", routines)
    else
      let updated : Routine :=
        { id := idParam
          sec := body.sec.getD ""
          day := body.day.getD ""
          time := body.time.getD ""
          subject := body.subject.getD ""
          teacherId := teacherId }
      (.updated updated, updateFirst (fun r => r.id == idParam) (fun _ => updated) routines)

/-- `DELETE /routine/:id`: Admin-only; removes the first record whose id
matches (`findIndex` + `splice`). -/
def deleteRoutine (user : User) (idParam : Nat) (routines : List Routine) :
    RoutineWriteResult × List Routine :=
  if user.userType ≠ "Admin" then
    (.denied "Only Admins can delete routines", routines)
  else if ¬ routines.any (fun r => r.id == idParam) then
    (.notFound "Routine not found", routines)
  else
    (.deleted "Routine deleted", routines.eraseP (fun r => r.id == idParam))

/-- Outcome of `GET /routine`. -/
inductive RoutineListResult where
  | invalid (msg : String)
  | denied (msg : String)
  | ok (rs : List Routine)
deriving DecidableEq

/-- `GET /routine`: Admin sees all; Teacher sees own (`teacherId` match);
Student sees own section (400 when the stored user has no truthy section);
any other stored userType is a 403. Reads only. -/
def listRoutines (user : User) (routines : List Routine) : RoutineListResult :=
  if user.userType = "Admin" then
    .ok routines
  else if user.userType = "Teacher" then
    .ok (routines.filter fun r => r.teacherId == user.id)
  else if user.userType = "Student" then
    if ¬ strTruthy user.sec then
      .invalid "Student section not found"
    else
      .ok (routines.filter fun r => some r.sec == user.sec)
  else
    .denied "Invalid user type"

/-! ## Documents (`docs.js`) and policies (`policies` route) -/

/-- The multer-supplied upload (`req.file`), reduced to the stored filename;
absent when no file was uploaded. -/
structure FileInfo where
  filename : String
deriving DecidableEq

/-- A stored document record (`documents.json`); the policies collection uses
the same shape. -/
structure Document where
  id : Nat
  fileName : String
  uploadedBy : Nat
  uploadDate : String
  description : String
deriving DecidableEq

/-- Outcome of a document/policy upload. -/
inductive DocWriteResult where
  | denied (msg : String)
  | invalid (msg : String)
  | created (d : Document)
deriving DecidableEq

/-- `POST /docs`: Teacher-only; requires a file; appends with id
`documents.length + 1`, `uploadedBy` the caller, `description || ''`. -/
def createDocument (user : User) (file : Option FileInfo)
    (description : Option String) (now : String) (documents : List Document) :
    DocWriteResult × List Document :=
  if user.userType ≠ "Teacher" then
    (.denied "Only Teachers can upload documents", documents)
  else
    match file with
    | none => (.invalid "No file uploaded", documents)
    | some f =>
      let d : Document :=
        { id := documents.length + 1
          fileName := f.filename
          uploadedBy := user.id
          uploadDate := now
          description := description.getD "" }
      (.created d, documents ++ [d])

/-- `POST /policies`: Admin-only (the PDF/DOCX restriction lives in the multer
file filter, outside this state model); otherwise identical to documents. -/
def createPolicy (user : User) (file : Option FileInfo)
    (description : Option String) (now : String) (policies : List Document) :
    DocWriteResult × List Document :=
  if user.userType ≠ "Admin" then
    (.denied "Only Admins can upload policies", policies)
  else
    match file with
    | none => (.invalid "No file uploaded", policies)
    | some f =>
      let d : Document :=
        { id := policies.length + 1
          fileName := f.filename
          uploadedBy := user.id
          uploadDate := now
          description := description.getD "" }
      (.created d, policies ++ [d])

/-! ## Marks (marks route of `routine.js`'s module group) -/

/-- A stored mark record (`marks.json`). Note: it has no `id` field. -/
structure MarkEntry where
  userId : Nat
  subject : String
  marks : ℚ
  grade : String
  updatedBy : Nat
  updatedAt : String
deriving DecidableEq

/-- The JSON object literal pushed into `marks.json`, as its field list; used
to reason about which keys a persisted mark record carries. -/
def MarkEntry.toFields (e : MarkEntry) : List (String × JVal) :=
  [("userId", .num e.userId), ("subject", .str e.subject), ("marks", .num e.marks),
   ("grade", .str e.grade), ("updatedBy", .num e.updatedBy),
   ("updatedAt", .str e.updatedAt)]

/-- Request body of `POST /marks` (`userId` as parsed by `parseInt`). -/
structure MarksBody where
  userId : Option Nat
  subject : Option String
  marks : Option JVal

/-- Outcome of `POST /marks`. -/
inductive MarksResult where
  | denied (msg : String)
  | invalid (msg : String)
  | created (e : MarkEntry)
deriving DecidableEq

def validSubjects : List String := ["Math", "Science", "English"]

/-- The `(userId, subject)` key of the marks upsert. -/
def marksKey (uid : Nat) (subj : String) (m : MarkEntry) : Bool :=
  m.userId == uid && m.subject == subj

/-- `POST /marks`: Admin/Teacher-only; `userId`, `subject`, `marks` required;
`marks` must be a number in `[0, 100]`; `subject` must be enumerated; then
upsert by `(userId, subject)` — replace the first match in place, else
append. The stored grade is `calculateGrade marks`. -/
def postMarks (user : User) (body : MarksBody) (now : String)
    (allMarks : List MarkEntry) : MarksResult × List MarkEntry :=
  if user.userType ≠ "Admin" ∧ user.userType ≠ "Teacher" then
    (.denied "Only Admins or Teachers can update marks", allMarks)
  else if ¬(natTruthy body.userId ∧ strTruthy body.subject ∧ body.marks.isSome) then
    (.invalid "userId, subject, and marks are required", allMarks)
  else
    match body.marks with
    | some (.num q) =>
      if q < 0 ∨ 100 < q then
        (.invalid "Marks must be a number between 0 and 100", allMarks)
      else
        let subject := body.subject.getD ""
        if ¬ validSubjects.contains subject then
          (.invalid (String.append "Subject must be one of: "
            (String.intercalate ", " validSubjects)), allMarks)
        else
          let uid := body.userId.getD 0
          let entry : MarkEntry :=
            { userId := uid, subject := subject, marks := q
              grade := calculateGrade q, updatedBy := user.id, updatedAt := now }
          if allMarks.any (marksKey uid subject) then
            (.created entry, updateFirst (marksKey uid subject) (fun _ => entry) allMarks)
          else
            (.created entry, allMarks ++ [entry])
    | _ => (.invalid "Marks must be a number between 0 and 100", allMarks)

/-! ## Attendance (`attendance.js`) -/

/-- A stored attendance record (`attendance.json`). Note: it has no `id`
field; `name` holds the target user's email. -/
structure AttendanceRecord where
  userId : Nat
  name : String
  userType : String
  attendance : List (String × JVal)

/-- The JSON object literal pushed into `attendance.json`, as its field
list. -/
def AttendanceRecord.toFields (r : AttendanceRecord) : List (String × JVal) :=
  [("userId", .num r.userId), ("name", .str r.name), ("userType", .str r.userType),
   ("attendance", .obj r.attendance)]

/-- Request body of `POST /attendance`; `attendance` is `none` when the field
is absent or not an object. -/
structure AttendanceBody where
  userId : Option Nat
  attendance : Option (List (String × JVal))

/-- Outcome of `POST /attendance` (on success the route streams an Excel
export, carrying no record, so `created` is bare). -/
inductive AttResult where
  | denied (msg : String)
  | invalid (msg : String)
  | created
deriving DecidableEq

def validDays : List String :=
  ["Monday", "Tuesday", "Wednesday", "Thursday", "Friday", "Saturday", "Sunday"]

/-- `POST /attendance` (caller claims come from the local stateless
authenticate): Admin/Teacher-only; requires `userId` and an attendance object
every key of which is a valid day mapped to a boolean; the target user must
exist and be a Teacher or Student; then upsert by `userId` — the first
existing record's `attendance` field is replaced wholesale, else a new
record `{userId, name: user.email, userType, attendance}` is appended. -/
def postAttendance (user : Claims) (body : AttendanceBody) (users : List User)
    (records : List AttendanceRecord) : AttResult × List AttendanceRecord :=
  if user.userType ≠ "Admin" ∧ user.userType ≠ "Teacher" then
    (.denied "Only Admins or Teachers can modify attendance", records)
  else if ¬(natTruthy body.userId ∧ body.attendance.isSome) then
    (.invalid "userId and attendance object are required", records)
  else
    let att := body.attendance.getD []
    if ¬ att.all (fun kv => validDays.contains kv.1 && kv.2.isBool) then
      (.invalid "Attendance must contain valid days with boolean values", records)
    else
      let uid := body.userId.getD 0
      match users.find? (fun u => u.id == uid) with
      | none => (.invalid "Invalid userId or user is not a Teacher/Student", records)
      | some u =>
        if u.userType ≠ "Teacher" ∧ u.userType ≠ "Student" then
          (.invalid "Invalid userId or user is not a Teacher/Student", records)
        else if records.any (fun r => r.userId == uid) then
          (.created,
            updateFirst (fun r => r.userId == uid) (fun r => { r with attendance := att }) records)
        else
          (.created,
            records ++ [{ userId := uid, name := u.email, userType := u.userType, attendance := att }])

/-! ## Theorems -/

/-- C2: every marks value accepted by `POST /marks` (a number with
`0 ≤ m ≤ 100`) is stored with the grade given by the fixed thresholds
`≥90→A, ≥80→B, ≥70→C, ≥60→D, else F`, with the exact boundary values
`grade(90)=A, grade(89)=B, grade(80)=B, grade(79)=C, grade(70)=C,
grade(69)=D, grade(60)=D, grade(59)=F`. -/
theorem C2_grade_from_thresholds :
    (∀ m : ℚ, 90 ≤ m → calculateGrade m = "A")
  ∧ (∀ m : ℚ, 80 ≤ m → m < 90 → calculateGrade m = "B")
  ∧ (∀ m : ℚ, 70 ≤ m → m < 80 → calculateGrade m = "C")
  ∧ (∀ m : ℚ, 60 ≤ m → m < 70 → calculateGrade m = "D")
  ∧ (∀ m : ℚ, m < 60 → calculateGrade m = "F")
  ∧ (calculateGrade 90 = "A" ∧ calculateGrade 89 = "B" ∧ calculateGrade 80 = "B"
      ∧ calculateGrade 79 = "C" ∧ calculateGrade 70 = "C" ∧ calculateGrade 69 = "D"
      ∧ calculateGrade 60 = "D" ∧ calculateGrade 59 = "F")
  ∧ (∀ (u : User) (b : MarksBody) (now : String) (s : List MarkEntry)
        (e : MarkEntry) (s' : List MarkEntry),
        postMarks u b now s = (.created e, s') →
        b.marks = some (.num e.marks) ∧ 0 ≤ e.marks ∧ e.marks ≤ 100
          ∧ e.grade = calculateGrade e.marks) := by
  refine ⟨?_, ?_, ?_, ?_, ?_, ?_, ?_⟩
  · intro m h
    rw [calculateGrade, if_pos h]
  · intro m h1 h2
    rw [calculateGrade, if_neg (not_le.mpr h2), if_pos h1]
  · intro m h1 h2
    rw [calculateGrade, if_neg (not_le.mpr (h2.trans_le (by norm_num))),
      if_neg (not_le.mpr h2), if_pos h1]
  · intro m h1 h2
    rw [calculateGrade, if_neg (not_le.mpr (h2.trans_le (by norm_num))),
      if_neg (not_le.mpr (h2.trans_le (by norm_num))), if_neg (not_le.mpr h2), if_pos h1]
  · intro m h
    rw [calculateGrade, if_neg (not_le.mpr (h.trans_le (by norm_num))),
      if_neg (not_le.mpr (h.trans_le (by norm_num))),
      if_neg (not_le.mpr (h.trans_le (by norm_num))), if_neg (not_le.mpr h)]
  · refine ⟨by decide, by decide, by decide, by decide, by decide, by decide, by decide, by decide⟩
  · intro u b now s e s' h
    unfold postMarks at h
    split at h
    · simp at h
    · split at h
      · simp at h
      · split at h
        next q hq =>
          split at h
          · simp at h
          next hrange =>
            simp only [] at h
            split at h
            · simp at h
            · push_neg at hrange
              split at h <;>
                · simp only [Prod.mk.injEq, MarksResult.created.injEq] at h
                  obtain ⟨he, _⟩ := h
                  subst he
                  exact ⟨hq, hrange.1, hrange.2, rfl⟩
        · simp at h

/-- Witness for C2 at concrete inputs. -/
theorem C2_grade_from_thresholds_witness :
    calculateGrade 95 = "A" ∧ calculateGrade 42 = "F"
  ∧ ((⟨some 7, some "Math", some (.num 95)⟩ : MarksBody).marks
        = some (.num (⟨7, "Math", 95, "A", 1, "t"⟩ : MarkEntry).marks)
      ∧ 0 ≤ (⟨7, "Math", 95, "A", 1, "t"⟩ : MarkEntry).marks
      ∧ (⟨7, "Math", 95, "A", 1, "t"⟩ : MarkEntry).marks ≤ 100
      ∧ (⟨7, "Math", 95, "A", 1, "t"⟩ : MarkEntry).grade
        = calculateGrade (⟨7, "Math", 95, "A", 1, "t"⟩ : MarkEntry).marks) :=
  ⟨C2_grade_from_thresholds.1 95 (by norm_num),
   C2_grade_from_thresholds.2.2.2.2.1 42 (by norm_num),
   C2_grade_from_thresholds.2.2.2.2.2.2
     ⟨1, "a@b.c", bcryptHash "pw", "Admin", none⟩
     ⟨some 7, some "Math", some (.num 95)⟩ "t" []
     ⟨7, "Math", 95, "A", 1, "t"⟩ [⟨7, "Math", 95, "A", 1, "t"⟩] (by decide)⟩

/-- Sample stored accounts used to instantiate hypothesis-bearing theorems. -/
def adminU : User := ⟨1, "admin@example.com", bcryptHash "pw", "Admin", none⟩

def teacherU : User := ⟨2, "teacher@example.com", bcryptHash "pw", "Teacher", none⟩

def studentU : User := ⟨3, "student@example.com", bcryptHash "pw", "Student", some "A"⟩

def sampleUsers : List User := [adminU, teacherU, studentU]

def sampleRoutines : List Routine :=
  [⟨1, "A", "Monday", "10:00", "Math", 2⟩, ⟨2, "B", "Tuesday", "11:00", "Science", 4⟩]

/-- C1: the authorization decisions match the policy table: a Student (and a
Teacher) creating a Routine is denied with "Only Admins can create routines";
only a Teacher may create a Document; listing Routines gives an Admin all
records, a Teacher exactly those with their own `teacherId`, and a Student
exactly those of their own section. -/
theorem C1_authorization_matrix :
    (∀ (u : User) (b : RoutineBody) (us : List User) (rs : List Routine),
        u.userType = "Student" →
        (createRoutine u b us rs).1 = .denied "Only Admins can create routines")
  ∧ (∀ (u : User) (b : RoutineBody) (us : List User) (rs : List Routine),
        u.userType = "Teacher" →
        (createRoutine u b us rs).1 = .denied "Only Admins can create routines")
  ∧ (∀ (u : User) (file : Option FileInfo) (d : Option String) (now : String)
        (docs : List Document), u.userType ≠ "Teacher" →
        (createDocument u file d now docs).1 = .denied "Only Teachers can upload documents")
  ∧ (∀ (u : User) (f : FileInfo) (d : Option String) (now : String)
        (docs : List Document), u.userType = "Teacher" →
        ∃ doc, (createDocument u (some f) d now docs).1 = .created doc)
  ∧ (∀ (u : User) (rs : List Routine), u.userType = "Admin" →
        listRoutines u rs = .ok rs)
  ∧ (∀ (u : User) (rs : List Routine), u.userType = "Teacher" →
        listRoutines u rs = .ok (rs.filter fun r => r.teacherId == u.id))
  ∧ (∀ (u : User) (s : String) (rs : List Routine),
        u.userType = "Student" → u.sec = some s → s ≠ "" →
        listRoutines u rs = .ok (rs.filter fun r => r.sec == s)) := by
  refine ⟨?_, ?_, ?_, ?_, ?_, ?_, ?_⟩
  · intro u b us rs h
    simp [createRoutine, h]
  · intro u b us rs h
    simp [createRoutine, h]
  · intro u file d now docs h
    simp [createDocument, h]
  · intro u f d now docs h
    refine ⟨⟨docs.length + 1, f.filename, u.id, now, d.getD ""⟩, ?_⟩
    simp [createDocument, h]
  · intro u rs h
    simp [listRoutines, h]
  · intro u rs h
    simp [listRoutines, h]
  · intro u s rs h hsec hs
    simp [listRoutines, h, hsec, strTruthy, hs]

/-- Witness for C1 at concrete identities and collections. -/
theorem C1_authorization_matrix_witness :
    (createRoutine studentU ⟨some "A", some "Monday", some "10:00", some "Math", some 2⟩
        sampleUsers sampleRoutines).1 = .denied "Only Admins can create routines"
  ∧ (createRoutine teacherU ⟨some "A", some "Monday", some "10:00", some "Math", some 2⟩
        sampleUsers sampleRoutines).1 = .denied "Only Admins can create routines"
  ∧ (createDocument adminU (some ⟨"f.pdf"⟩) (some "d") "t" []).1
      = .denied "Only Teachers can upload documents"
  ∧ (∃ doc, (createDocument teacherU (some ⟨"f.pdf"⟩) (some "d") "t" []).1 = .created doc)
  ∧ listRoutines adminU sampleRoutines = .ok sampleRoutines
  ∧ listRoutines teacherU sampleRoutines
      = .ok (sampleRoutines.filter fun r => r.teacherId == teacherU.id)
  ∧ listRoutines studentU sampleRoutines
      = .ok (sampleRoutines.filter fun r => r.sec == "A") :=
  ⟨C1_authorization_matrix.1 studentU _ sampleUsers sampleRoutines (by decide),
   C1_authorization_matrix.2.1 teacherU _ sampleUsers sampleRoutines (by decide),
   C1_authorization_matrix.2.2.1 adminU _ (some "d") "t" [] (by decide),
   C1_authorization_matrix.2.2.2.1 teacherU ⟨"f.pdf"⟩ (some "d") "t" [] (by decide),
   C1_authorization_matrix.2.2.2.2.1 adminU sampleRoutines (by decide),
   C1_authorization_matrix.2.2.2.2.2.1 teacherU sampleRoutines (by decide),
   C1_authorization_matrix.2.2.2.2.2.2 studentU "A" sampleRoutines (by decide) (by decide)
     (by decide)⟩

/-- No two stored accounts share the same case-folded email. -/
def emailsUnique (users : List User) : Prop :=
  users.Pairwise (fun a b => lowerStr a.email ≠ lowerStr b.email)

instance (users : List User) : Decidable (emailsUnique users) := by
  unfold emailsUnique; infer_instance

/-- C4: signup preserves case-insensitive email uniqueness; a signup whose
email case-folds to an existing account's email never creates a record,
leaves the users collection unchanged, and (when the earlier field checks
pass) fails with "User already exists". -/
theorem C4_email_uniqueness :
    (∀ (secret : String) (now : Nat) (b : SignupBody) (users : List User),
        emailsUnique users → emailsUnique (signup secret now b users).2)
  ∧ (∀ (secret : String) (now : Nat) (b : SignupBody) (users : List User),
        (∃ e, b.email = some e ∧ ∃ u ∈ users, lowerStr u.email = lowerStr e) →
        (∀ t nu, (signup secret now b users).1 ≠ .created t nu)
          ∧ (signup secret now b users).2 = users)
  ∧ (∀ (secret : String) (now : Nat) (b : SignupBody) (users : List User) (e : String),
        b.email = some e → e ≠ "" → strTruthy b.password → strTruthy b.userType →
        ¬(b.userType.getD "" = "Student" ∧ ¬ strTruthy b.sec) →
        VALID_USER_TYPES.contains (b.userType.getD "") →
        (∃ u ∈ users, lowerStr u.email = lowerStr e) →
        (signup secret now b users).1 = .invalid "User already exists") := by
  refine ⟨?_, ?_, ?_⟩
  · intro secret now b users huniq
    unfold signup
    split
    · exact huniq
    · simp only []
      split
      · exact huniq
      · split
        · exact huniq
        · split
          · exact huniq
          next hany =>
            simp only []
            rw [emailsUnique, List.pairwise_append]
            refine ⟨huniq, List.pairwise_singleton _ _, ?_⟩
            intro a ha u' hu'
            simp only [List.mem_singleton] at hu'
            subst hu'
            simp only [List.any_eq_true, not_exists, not_and, Bool.not_eq_true] at hany
            have := hany a ha
            simpa [beq_iff_eq] using this
  · intro secret now b users hdup
    obtain ⟨e, he, u0, hu0, hfold⟩ := hdup
    unfold signup
    split
    · exact ⟨fun t nu h => SignupResult.noConfusion h, rfl⟩
    · simp only []
      split
      · exact ⟨fun t nu h => SignupResult.noConfusion h, rfl⟩
      · split
        · exact ⟨fun t nu h => SignupResult.noConfusion h, rfl⟩
        · split
          · exact ⟨fun t nu h => SignupResult.noConfusion h, rfl⟩
          next hany =>
            exfalso
            apply hany
            rw [List.any_eq_true]
            exact ⟨u0, hu0, by simp [he, beq_iff_eq, hfold]⟩
  · intro secret now b users e he hne hpw hut hsec hvalid hdup
    obtain ⟨u0, hu0, hfold⟩ := hdup
    have hemail : strTruthy b.email = true := by simp [strTruthy, he, hne]
    have hgetd : b.email.getD "" = e := by rw [he]; rfl
    have hany : (users.any fun u => lowerStr u.email == lowerStr (b.email.getD "")) = true := by
      rw [List.any_eq_true]
      exact ⟨u0, hu0, by rw [hgetd]; simp [beq_iff_eq, hfold]⟩
    unfold signup
    rw [if_neg (not_not_intro ⟨hemail, hpw, hut⟩)]
    simp only []
    rw [if_neg hsec, if_neg (not_not_intro hvalid), if_pos hany]

/-- Witness for C4: a well-formed collection, and a signup whose email is a
case-variant of an existing one. -/
theorem C4_email_uniqueness_witness :
    emailsUnique (signup "sek" 0
        ⟨some "Admin@Example.com", some "pw2", some "Teacher", none⟩ sampleUsers).2
  ∧ ((∀ t nu, (signup "sek" 0
        ⟨some "Admin@Example.com", some "pw2", some "Teacher", none⟩ sampleUsers).1
          ≠ .created t nu)
      ∧ (signup "sek" 0
          ⟨some "Admin@Example.com", some "pw2", some "Teacher", none⟩ sampleUsers).2
        = sampleUsers)
  ∧ (signup "sek" 0
      ⟨some "Admin@Example.com", some "pw2", some "Teacher", none⟩ sampleUsers).1
      = .invalid "User already exists" :=
  ⟨C4_email_uniqueness.1 "sek" 0 _ sampleUsers (by decide),
   C4_email_uniqueness.2.1 "sek" 0 _ sampleUsers
     ⟨"Admin@Example.com", rfl, adminU, by decide, by decide⟩,
   C4_email_uniqueness.2.2 "sek" 0 _ sampleUsers "Admin@Example.com" rfl
     (by decide) (by decide) (by decide) (by decide) (by decide)
     ⟨adminU, by decide, by decide⟩⟩

/-! ### Characterizations of the handlers' branches -/

/-- A truthy numeric field holds exactly its default-read value. -/
theorem natTruthy_some {o : Option Nat} (h : natTruthy o = true) : o = some (o.getD 0) := by
  cases o with
  | none => simp [natTruthy] at h
  | some n => rfl

/-- A truthy string field holds its default-read value, which is non-empty. -/
theorem strTruthy_some {o : Option String} (h : strTruthy o = true) :
    o = some (o.getD "") ∧ o.getD "" ≠ "" := by
  cases o with
  | none => simp [strTruthy] at h
  | some s => simpa [strTruthy] using h

/-- The routine teacher guard, unfolded. -/
theorem teacherExists_iff (us : List User) (tid : Nat) :
    teacherExists us tid = true ↔ ∃ t ∈ us, t.id = tid ∧ t.userType = "Teacher" := by
  simp [teacherExists, List.any_eq_true, Bool.and_eq_true, beq_iff_eq]

/-- Everything a successful routine creation implies. -/
theorem createRoutine_created {u : User} {b : RoutineBody} {us : List User}
    {rs : List Routine} {r : Routine} {rs' : List Routine}
    (h : createRoutine u b us rs = (.created r, rs')) :
    u.userType = "Admin" ∧ routineFieldsOk b
      ∧ teacherExists us (b.teacherId.getD 0) = true
      ∧ r = ⟨rs.length + 1, b.sec.getD "", b.day.getD "", b.time.getD "",
          b.subject.getD "", b.teacherId.getD 0⟩
      ∧ rs' = rs ++ [r] := by
  by_cases h1 : u.userType = "Admin"
  · by_cases h2 : routineFieldsOk b
    · by_cases h3 : teacherExists us (b.teacherId.getD 0) = true
      · simp only [createRoutine, h1, h2, h3, ne_eq, not_true_eq_false, if_false,
          not_false_eq_true, if_true, not_not, if_neg, Prod.mk.injEq,
          RoutineWriteResult.created.injEq] at h
        rcases h with ⟨hr, hs⟩
        exact ⟨h1, h2, h3, hr.symm, by rw [← hs, hr]⟩
      · simp [createRoutine, h1, h2, h3] at h
    · simp [createRoutine, h1, h2] at h
  · simp [createRoutine, h1] at h

/-- A routine creation that does not succeed leaves the collection as it
was. -/
theorem createRoutine_fail {u : User} {b : RoutineBody} {us : List User}
    {rs : List Routine} (h : ∀ r, (createRoutine u b us rs).1 ≠ .created r) :
    (createRoutine u b us rs).2 = rs := by
  by_cases h1 : u.userType = "Admin"
  · by_cases h2 : routineFieldsOk b
    · by_cases h3 : teacherExists us (b.teacherId.getD 0) = true
      · have hc := h ⟨rs.length + 1, b.sec.getD "", b.day.getD "", b.time.getD "",
          b.subject.getD "", b.teacherId.getD 0⟩
        simp [createRoutine, h1, h2, h3] at hc
      · simp [createRoutine, h1, h2, h3]
    · simp [createRoutine, h1, h2]
  · simp [createRoutine, h1]

/-- Everything a successful routine update implies. -/
theorem updateRoutine_updated {u : User} {idp : Nat} {b : RoutineBody}
    {us : List User} {rs : List Routine} {r : Routine} {rs' : List Routine}
    (h : updateRoutine u idp b us rs = (.updated r, rs')) :
    u.userType = "Admin" ∧ routineFieldsOk b
      ∧ teacherExists us (b.teacherId.getD 0) = true
      ∧ (rs.any fun x => x.id == idp) = true
      ∧ r = ⟨idp, b.sec.getD "", b.day.getD "", b.time.getD "",
          b.subject.getD "", b.teacherId.getD 0⟩
      ∧ rs' = updateFirst (fun x => x.id == idp) (fun _ => r) rs := by
  by_cases h1 : u.userType = "Admin"
  · by_cases h2 : routineFieldsOk b
    · by_cases h3 : teacherExists us (b.teacherId.getD 0) = true
      · by_cases h4 : (rs.any fun x => x.id == idp) = true
        · simp only [updateRoutine, h1, h2, h3, h4, ne_eq, not_true_eq_false, if_false,
            not_false_eq_true, if_true, not_not, Prod.mk.injEq,
            RoutineWriteResult.updated.injEq] at h
          rcases h with ⟨hr, hs⟩
          exact ⟨h1, h2, h3, h4, hr.symm, by rw [← hs, hr]⟩
        · simp [updateRoutine, h1, h2, h3, h4] at h
      · simp [updateRoutine, h1, h2, h3] at h
    · simp [updateRoutine, h1, h2] at h
  · simp [updateRoutine, h1] at h

/-- A routine update that does not succeed leaves the collection as it was. -/
theorem updateRoutine_fail {u : User} {idp : Nat} {b : RoutineBody}
    {us : List User} {rs : List Routine}
    (h : ∀ r, (updateRoutine u idp b us rs).1 ≠ .updated r) :
    (updateRoutine u idp b us rs).2 = rs := by
  by_cases h1 : u.userType = "Admin"
  · by_cases h2 : routineFieldsOk b
    · by_cases h3 : teacherExists us (b.teacherId.getD 0) = true
      · by_cases h4 : (rs.any fun x => x.id == idp) = true
        · have hc := h ⟨idp, b.sec.getD "", b.day.getD "", b.time.getD "",
            b.subject.getD "", b.teacherId.getD 0⟩
          simp [updateRoutine, h1, h2, h3, h4] at hc
        · simp [updateRoutine, h1, h2, h3, h4]
      · simp [updateRoutine, h1, h2, h3]
    · simp [updateRoutine, h1, h2]
  · simp [updateRoutine, h1]

/-- A routine deletion that does not succeed leaves the collection as it
was. -/
theorem deleteRoutine_fail {u : User} {idp : Nat} {rs : List Routine}
    (h : ∀ m, (deleteRoutine u idp rs).1 ≠ .deleted m) :
    (deleteRoutine u idp rs).2 = rs := by
  by_cases h1 : u.userType = "Admin"
  · by_cases h2 : (rs.any fun r => r.id == idp) = true
    · have hc := h "Routine deleted"
      simp [deleteRoutine, h1, h2] at hc
    · simp [deleteRoutine, h1, h2]
  · simp [deleteRoutine, h1]

/-- C10: routine create and update never store anything unless the supplied
`teacherId` is the id of a stored Teacher; when the caller is an Admin and
the fields are present, the failure is exactly the 400 "Invalid teacherId";
and every successfully written routine's `teacherId` was a stored Teacher's
id at the time of the write. -/
theorem C10_routine_teacher_reference :
    (∀ (u : User) (b : RoutineBody) (us : List User) (rs : List Routine) (idp : Nat),
        ¬(∃ t ∈ us, b.teacherId = some t.id ∧ t.userType = "Teacher") →
        (∀ r, (createRoutine u b us rs).1 ≠ .created r)
          ∧ (createRoutine u b us rs).2 = rs
          ∧ (∀ r, (updateRoutine u idp b us rs).1 ≠ .updated r)
          ∧ (updateRoutine u idp b us rs).2 = rs)
  ∧ (∀ (u : User) (b : RoutineBody) (us : List User) (rs : List Routine) (idp : Nat),
        u.userType = "Admin" → routineFieldsOk b →
        ¬ teacherExists us (b.teacherId.getD 0) = true →
        (createRoutine u b us rs).1 = .invalid "Invalid teacherId"
          ∧ (updateRoutine u idp b us rs).1 = .invalid "Invalid teacherId")
  ∧ (∀ (u : User) (b : RoutineBody) (us : List User) (rs : List Routine)
        (r : Routine) (rs' : List Routine),
        createRoutine u b us rs = (.created r, rs') →
        ∃ t ∈ us, t.id = r.teacherId ∧ t.userType = "Teacher")
  ∧ (∀ (u : User) (b : RoutineBody) (us : List User) (rs : List Routine) (idp : Nat)
        (r : Routine) (rs' : List Routine),
        updateRoutine u idp b us rs = (.updated r, rs') →
        ∃ t ∈ us, t.id = r.teacherId ∧ t.userType = "Teacher") := by
  have hkey : ∀ (b : RoutineBody) (us : List User),
      routineFieldsOk b → teacherExists us (b.teacherId.getD 0) = true →
      ∃ t ∈ us, b.teacherId = some t.id ∧ t.userType = "Teacher" := by
    intro b us hb ht
    obtain ⟨t, htmem, htid, htty⟩ := (teacherExists_iff us _).mp ht
    exact ⟨t, htmem, by rw [htid]; exact natTruthy_some hb.2.2.2.2, htty⟩
  refine ⟨?_, ?_, ?_, ?_⟩
  · intro u b us rs idp hno
    have hnc : ∀ r, (createRoutine u b us rs).1 ≠ .created r := by
      intro r hr
      obtain ⟨rNew, rs', hEq⟩ :
          ∃ rNew rs', createRoutine u b us rs = (.created rNew, rs') := by
        refine ⟨r, (createRoutine u b us rs).2, ?_⟩
        rw [← hr]
      obtain ⟨_, hb, ht, _, _⟩ := createRoutine_created hEq
      exact hno (hkey b us hb ht)
    have hnu : ∀ r, (updateRoutine u idp b us rs).1 ≠ .updated r := by
      intro r hr
      obtain ⟨rNew, rs', hEq⟩ :
          ∃ rNew rs', updateRoutine u idp b us rs = (.updated rNew, rs') := by
        refine ⟨r, (updateRoutine u idp b us rs).2, ?_⟩
        rw [← hr]
      obtain ⟨_, hb, ht, _, _, _⟩ := updateRoutine_updated hEq
      exact hno (hkey b us hb ht)
    exact ⟨hnc, createRoutine_fail hnc, hnu, updateRoutine_fail hnu⟩
  · intro u b us rs idp hu hb ht
    constructor
    · simp [createRoutine, hu, hb, ht]
    · simp [updateRoutine, hu, hb, ht]
  · intro u b us rs r rs' h
    obtain ⟨_, hb, ht, hr, _⟩ := createRoutine_created h
    obtain ⟨t, htmem, htid, htty⟩ := (teacherExists_iff us _).mp ht
    exact ⟨t, htmem, by rw [hr]; exact htid, htty⟩
  · intro u b us rs idp r rs' h
    obtain ⟨_, hb, ht, _, hr, _⟩ := updateRoutine_updated h
    obtain ⟨t, htmem, htid, htty⟩ := (teacherExists_iff us _).mp ht
    exact ⟨t, htmem, by rw [hr]; exact htid, htty⟩

/-- Witness for C10: `teacherId` 9 names no stored Teacher; `teacherId` 3
names a Student; `teacherId` 2 is the stored Teacher. -/
theorem C10_routine_teacher_reference_witness :
    ((∀ r, (createRoutine adminU ⟨some "A", some "Monday", some "10:00", some "Math", some 9⟩
        sampleUsers sampleRoutines).1 ≠ .created r)
      ∧ (createRoutine adminU ⟨some "A", some "Monday", some "10:00", some "Math", some 9⟩
          sampleUsers sampleRoutines).2 = sampleRoutines
      ∧ (∀ r, (updateRoutine adminU 1 ⟨some "A", some "Monday", some "10:00", some "Math", some 9⟩
          sampleUsers sampleRoutines).1 ≠ .updated r)
      ∧ (updateRoutine adminU 1 ⟨some "A", some "Monday", some "10:00", some "Math", some 9⟩
          sampleUsers sampleRoutines).2 = sampleRoutines)
  ∧ ((createRoutine adminU ⟨some "A", some "Monday", some "10:00", some "Math", some 3⟩
        sampleUsers sampleRoutines).1 = .invalid "Invalid teacherId"
      ∧ (updateRoutine adminU 1 ⟨some "A", some "Monday", some "10:00", some "Math", some 3⟩
          sampleUsers sampleRoutines).1 = .invalid "Invalid teacherId")
  ∧ (∃ t ∈ sampleUsers, t.id = (⟨3, "A", "Monday", "10:00", "Math", 2⟩ : Routine).teacherId
        ∧ t.userType = "Teacher") :=
  ⟨C10_routine_teacher_reference.1 adminU _ sampleUsers sampleRoutines 1 (by decide),
   C10_routine_teacher_reference.2.1 adminU _ sampleUsers sampleRoutines 1
     (by decide) (by decide) (by decide),
   C10_routine_teacher_reference.2.2.1 adminU
     ⟨some "A", some "Monday", some "10:00", some "Math", some 2⟩ sampleUsers sampleRoutines
     ⟨3, "A", "Monday", "10:00", "Math", 2⟩
     (sampleRoutines ++ [⟨3, "A", "Monday", "10:00", "Math", 2⟩]) (by decide)⟩

/-- Everything a successful marks submission implies. -/
theorem postMarks_created {u : User} {b : MarksBody} {now : String}
    {s : List MarkEntry} {e : MarkEntry} {s' : List MarkEntry}
    (h : postMarks u b now s = (.created e, s')) :
    (u.userType = "Admin" ∨ u.userType = "Teacher")
  ∧ natTruthy b.userId = true ∧ strTruthy b.subject = true
  ∧ e.userId = b.userId.getD 0 ∧ e.subject = b.subject.getD ""
  ∧ b.marks = some (.num e.marks) ∧ 0 ≤ e.marks ∧ e.marks ≤ 100
  ∧ e.subject ∈ validSubjects
  ∧ e.grade = calculateGrade e.marks ∧ e.updatedBy = u.id ∧ e.updatedAt = now
  ∧ s' = (if s.any (marksKey e.userId e.subject) = true
        then updateFirst (marksKey e.userId e.subject) (fun _ => e) s
        else s ++ [e]) := by
  by_cases h1 : u.userType ≠ "Admin" ∧ u.userType ≠ "Teacher"
  · simp [postMarks, h1] at h
  · have hrole : u.userType = "Admin" ∨ u.userType = "Teacher" := by tauto
    by_cases h2 : natTruthy b.userId = true ∧ strTruthy b.subject = true
        ∧ b.marks.isSome = true
    · obtain ⟨h2a, h2b, h2c⟩ := h2
      rcases hm : b.marks with _ | v
      · rw [hm] at h2c; simp at h2c
      · cases v with
        | num q =>
          by_cases h3 : q < 0 ∨ 100 < q
          · simp [postMarks, h1, h2a, h2b, hm, h3] at h
          · push_neg at h3
            have h3' : ¬(q < 0 ∨ 100 < q) :=
              not_or_intro (not_lt.mpr h3.1) (not_lt.mpr h3.2)
            by_cases h4 : b.subject.getD "" ∈ validSubjects
            · by_cases h5 : ∃ x ∈ s, marksKey (b.userId.getD 0) (b.subject.getD "") x = true
              · simp [postMarks, h1, h2a, h2b, hm, h3', h4, h5] at h
                obtain ⟨he, hs⟩ := h
                subst he
                refine ⟨hrole, h2a, h2b, rfl, rfl, rfl, h3.1, h3.2, h4, rfl, rfl, rfl, ?_⟩
                rw [← hs]
                have hc : (s.any (marksKey (b.userId.getD 0) (b.subject.getD "")) = true) := by
                  rw [List.any_eq_true]; exact h5
                rw [if_pos hc]
              · simp [postMarks, h1, h2a, h2b, hm, h3', h4, h5] at h
                obtain ⟨he, hs⟩ := h
                subst he
                refine ⟨hrole, h2a, h2b, rfl, rfl, rfl, h3.1, h3.2, h4, rfl, rfl, rfl, ?_⟩
                rw [← hs]
                have hc : ¬(s.any (marksKey (b.userId.getD 0) (b.subject.getD "")) = true) := by
                  rw [List.any_eq_true]; exact h5
                rw [if_neg hc]
            · simp [postMarks, h1, h2a, h2b, hm, h3', h4] at h
        | str v => simp [postMarks, h1, h2a, h2b, hm] at h
        | bool v => simp [postMarks, h1, h2a, h2b, hm] at h
        | obj v => simp [postMarks, h1, h2a, h2b, hm] at h
    · simp [postMarks, h1, h2] at h

/-- A marks submission that does not succeed leaves the collection as it
was. -/
theorem postMarks_fail {u : User} {b : MarksBody} {now : String}
    {s : List MarkEntry} (h : ∀ e, (postMarks u b now s).1 ≠ .created e) :
    (postMarks u b now s).2 = s := by
  by_cases h1 : u.userType ≠ "Admin" ∧ u.userType ≠ "Teacher"
  · simp [postMarks, h1]
  · by_cases h2 : natTruthy b.userId = true ∧ strTruthy b.subject = true
        ∧ b.marks.isSome = true
    · obtain ⟨h2a, h2b, h2c⟩ := h2
      rcases hm : b.marks with _ | v
      · rw [hm] at h2c; simp at h2c
      · cases v with
        | num q =>
          by_cases h3 : q < 0 ∨ 100 < q
          · simp [postMarks, h1, h2a, h2b, hm, h3]
          · push_neg at h3
            have h3' : ¬(q < 0 ∨ 100 < q) :=
              not_or_intro (not_lt.mpr h3.1) (not_lt.mpr h3.2)
            by_cases h4 : b.subject.getD "" ∈ validSubjects
            · exfalso
              apply h ⟨b.userId.getD 0, b.subject.getD "", q, calculateGrade q, u.id, now⟩
              by_cases h5 : ∃ x ∈ s, marksKey (b.userId.getD 0) (b.subject.getD "") x = true
              · simp [postMarks, h1, h2a, h2b, hm, h3', h4, h5]
              · simp [postMarks, h1, h2a, h2b, hm, h3', h4, h5]
            · simp [postMarks, h1, h2a, h2b, hm, h3', h4]
        | str v => simp [postMarks, h1, h2a, h2b, hm]
        | bool v => simp [postMarks, h1, h2a, h2b, hm]
        | obj v => simp [postMarks, h1, h2a, h2b, hm]
    · simp [postMarks, h1, h2]

/-- Everything a successful signup implies. -/
theorem signup_created {secret : String} {now : Nat} {b : SignupBody}
    {users : List User} {t : Token} {nu : User} {users' : List User}
    (h : signup secret now b users = (.created t nu, users')) :
    strTruthy b.email = true ∧ strTruthy b.password = true ∧ strTruthy b.userType = true
  ∧ nu.id = users.length + 1 ∧ nu.email = b.email.getD ""
  ∧ nu.userType = b.userType.getD ""
  ∧ nu.sec = (if b.userType.getD "" = "Student" then b.sec else none)
  ∧ t = jwtSign secret now ⟨nu.id, nu.email, nu.userType, nu.sec⟩
  ∧ users' = users ++ [nu]
  ∧ (nu.userType = "Student" → strTruthy b.sec = true)
  ∧ b.userType.getD "" ∈ VALID_USER_TYPES
  ∧ (∀ x ∈ users, ¬ lowerStr x.email = lowerStr (b.email.getD "")) := by
  by_cases h1 : strTruthy b.email = true ∧ strTruthy b.password = true
      ∧ strTruthy b.userType = true
  · obtain ⟨h1a, h1b, h1c⟩ := h1
    by_cases h2 : b.userType.getD "" = "Student" ∧ strTruthy b.sec = false
    · simp [signup, h1a, h1b, h1c, h2] at h
    · by_cases h3 : b.userType.getD "" ∈ VALID_USER_TYPES
      · by_cases h4 : ∃ x ∈ users, lowerStr x.email = lowerStr (b.email.getD "")
        · simp [signup, h1a, h1b, h1c, h2, h3, h4] at h
        · simp [signup, h1a, h1b, h1c, h2, h3, h4] at h
          obtain ⟨⟨ht, hnu⟩, hu⟩ := h
          subst hnu
          refine ⟨h1a, h1b, h1c, rfl, rfl, rfl, rfl, ht.symm, hu.symm, ?_, h3, ?_⟩
          · intro hstu
            have := not_and.mp h2 (by simpa using hstu)
            simpa using this
          · intro x hx
            exact fun hc => h4 ⟨x, hx, hc⟩
      · simp [signup, h1a, h1b, h1c, h2, h3] at h
  · simp [signup, h1] at h

/-- A signup that does not succeed leaves the users collection as it was. -/
theorem signup_fail {secret : String} {now : Nat} {b : SignupBody} {users : List User}
    (h : ∀ t nu, (signup secret now b users).1 ≠ .created t nu) :
    (signup secret now b users).2 = users := by
  by_cases h1 : strTruthy b.email = true ∧ strTruthy b.password = true
      ∧ strTruthy b.userType = true
  · obtain ⟨h1a, h1b, h1c⟩ := h1
    by_cases h2 : b.userType.getD "" = "Student" ∧ strTruthy b.sec = false
    · simp [signup, h1a, h1b, h1c, h2]
    · by_cases h3 : b.userType.getD "" ∈ VALID_USER_TYPES
      · by_cases h4 : ∃ x ∈ users, lowerStr x.email = lowerStr (b.email.getD "")
        · simp [signup, h1a, h1b, h1c, h2, h3, h4]
        · exfalso
          apply h (jwtSign secret now ⟨users.length + 1, b.email.getD "", b.userType.getD "",
              if b.userType.getD "" = "Student" then b.sec else none⟩)
            ⟨users.length + 1, b.email.getD "", bcryptHash (b.password.getD ""),
              b.userType.getD "", if b.userType.getD "" = "Student" then b.sec else none⟩
          simp [signup, h1a, h1b, h1c, h2, h3, h4]
      · simp [signup, h1a, h1b, h1c, h2, h3]
  · simp [signup, h1]

/-- Everything a successful document upload implies. -/
theorem createDocument_created {u : User} {file : Option FileInfo}
    {description : Option String} {now : String} {docs : List Document}
    {d : Document} {docs' : List Document}
    (h : createDocument u file description now docs = (.created d, docs')) :
    u.userType = "Teacher" ∧ file = some ⟨d.fileName⟩
  ∧ d.id = docs.length + 1 ∧ d.uploadedBy = u.id ∧ d.uploadDate = now
  ∧ d.description = description.getD "" ∧ docs' = docs ++ [d] := by
  by_cases h1 : u.userType = "Teacher"
  · cases file with
    | none => simp [createDocument, h1] at h
    | some f =>
      simp only [createDocument, h1, ne_eq, not_true_eq_false, if_false,
        Prod.mk.injEq, DocWriteResult.created.injEq] at h
      obtain ⟨hd, hs⟩ := h
      subst hd
      exact ⟨h1, rfl, rfl, rfl, rfl, rfl, hs.symm⟩
  · simp [createDocument, h1] at h

/-- A document upload that does not succeed leaves the collection as it
was. -/
theorem createDocument_fail {u : User} {file : Option FileInfo}
    {description : Option String} {now : String} {docs : List Document}
    (h : ∀ d, (createDocument u file description now docs).1 ≠ .created d) :
    (createDocument u file description now docs).2 = docs := by
  by_cases h1 : u.userType = "Teacher"
  · cases file with
    | none => simp [createDocument, h1]
    | some f =>
      exfalso
      apply h ⟨docs.length + 1, f.filename, u.id, now, description.getD ""⟩
      simp [createDocument, h1]
  · simp [createDocument, h1]

/-- Everything a successful policy upload implies. -/
theorem createPolicy_created {u : User} {file : Option FileInfo}
    {description : Option String} {now : String} {ps : List Document}
    {d : Document} {ps' : List Document}
    (h : createPolicy u file description now ps = (.created d, ps')) :
    u.userType = "Admin" ∧ file = some ⟨d.fileName⟩
  ∧ d.id = ps.length + 1 ∧ d.uploadedBy = u.id ∧ d.uploadDate = now
  ∧ d.description = description.getD "" ∧ ps' = ps ++ [d] := by
  by_cases h1 : u.userType = "Admin"
  · cases file with
    | none => simp [createPolicy, h1] at h
    | some f =>
      simp only [createPolicy, h1, ne_eq, not_true_eq_false, if_false,
        Prod.mk.injEq, DocWriteResult.created.injEq] at h
      obtain ⟨hd, hs⟩ := h
      subst hd
      exact ⟨h1, rfl, rfl, rfl, rfl, rfl, hs.symm⟩
  · simp [createPolicy, h1] at h

/-- A policy upload that does not succeed leaves the collection as it was. -/
theorem createPolicy_fail {u : User} {file : Option FileInfo}
    {description : Option String} {now : String} {ps : List Document}
    (h : ∀ d, (createPolicy u file description now ps).1 ≠ .created d) :
    (createPolicy u file description now ps).2 = ps := by
  by_cases h1 : u.userType = "Admin"
  · cases file with
    | none => simp [createPolicy, h1]
    | some f =>
      exfalso
      apply h ⟨ps.length + 1, f.filename, u.id, now, description.getD ""⟩
      simp [createPolicy, h1]
  · simp [createPolicy, h1]

/-- An attendance submission that does not succeed leaves the collection as
it was. -/
theorem postAttendance_fail {c : Claims} {b : AttendanceBody} {users : List User}
    {recs : List AttendanceRecord}
    (h : (postAttendance c b users recs).1 ≠ .created) :
    (postAttendance c b users recs).2 = recs := by
  revert h
  unfold postAttendance
  split
  · intro _; rfl
  · split
    · intro _; rfl
    · simp only []
      split
      · intro _; rfl
      · split
        · intro _; rfl
        · split
          · intro _; rfl
          · split
            · intro h; exact absurd rfl h
            · intro h; exact absurd rfl h

/-- C7: for every mutating operation, an authorization or validation failure
(any outcome other than the success of that operation) returns before the
save: the persisted collection is unchanged. -/
theorem C7_failure_leaves_store_untouched :
    (∀ (u : User) (b : RoutineBody) (us : List User) (rs : List Routine),
        (∀ r, (createRoutine u b us rs).1 ≠ .created r) →
        (createRoutine u b us rs).2 = rs)
  ∧ (∀ (u : User) (idp : Nat) (b : RoutineBody) (us : List User) (rs : List Routine),
        (∀ r, (updateRoutine u idp b us rs).1 ≠ .updated r) →
        (updateRoutine u idp b us rs).2 = rs)
  ∧ (∀ (u : User) (idp : Nat) (rs : List Routine),
        (∀ m, (deleteRoutine u idp rs).1 ≠ .deleted m) →
        (deleteRoutine u idp rs).2 = rs)
  ∧ (∀ (u : User) (b : MarksBody) (now : String) (s : List MarkEntry),
        (∀ e, (postMarks u b now s).1 ≠ .created e) →
        (postMarks u b now s).2 = s)
  ∧ (∀ (c : Claims) (b : AttendanceBody) (us : List User) (recs : List AttendanceRecord),
        (postAttendance c b us recs).1 ≠ .created →
        (postAttendance c b us recs).2 = recs)
  ∧ (∀ (secret : String) (now : Nat) (b : SignupBody) (us : List User),
        (∀ t nu, (signup secret now b us).1 ≠ .created t nu) →
        (signup secret now b us).2 = us)
  ∧ (∀ (u : User) (f : Option FileInfo) (d : Option String) (now : String)
        (docs : List Document),
        (∀ x, (createDocument u f d now docs).1 ≠ .created x) →
        (createDocument u f d now docs).2 = docs)
  ∧ (∀ (u : User) (f : Option FileInfo) (d : Option String) (now : String)
        (ps : List Document),
        (∀ x, (createPolicy u f d now ps).1 ≠ .created x) →
        (createPolicy u f d now ps).2 = ps) :=
  ⟨fun _ _ _ _ h => createRoutine_fail h,
   fun _ _ _ _ _ h => updateRoutine_fail h,
   fun _ _ _ h => deleteRoutine_fail h,
   fun _ _ _ _ h => postMarks_fail h,
   fun _ _ _ _ h => postAttendance_fail h,
   fun _ _ _ _ h => signup_fail h,
   fun _ _ _ _ _ h => createDocument_fail h,
   fun _ _ _ _ _ h => createPolicy_fail h⟩

/-- Witness for C7: each operation invoked so that a check fails (wrong role,
or duplicate email), with the collection unchanged. -/
theorem C7_failure_leaves_store_untouched_witness :
    (createRoutine studentU ⟨some "A", some "Monday", some "10:00", some "Math", some 2⟩
        sampleUsers sampleRoutines).2 = sampleRoutines
  ∧ (updateRoutine studentU 1 ⟨some "A", some "Monday", some "10:00", some "Math", some 2⟩
        sampleUsers sampleRoutines).2 = sampleRoutines
  ∧ (deleteRoutine studentU 1 sampleRoutines).2 = sampleRoutines
  ∧ (postMarks studentU ⟨some 3, some "Math", some (.num 50)⟩ "t" []).2 = []
  ∧ (postAttendance ⟨3, "student@example.com", "Student", some "A"⟩
        ⟨some 3, some [("Monday", .bool true)]⟩ sampleUsers []).2 = []
  ∧ (signup "sek" 0 ⟨some "admin@example.com", some "pw", some "Teacher", none⟩
        sampleUsers).2 = sampleUsers
  ∧ (createDocument adminU (some ⟨"f.pdf"⟩) none "t" []).2 = []
  ∧ (createPolicy teacherU (some ⟨"f.pdf"⟩) none "t" []).2 = [] :=
  ⟨C7_failure_leaves_store_untouched.1 studentU _ sampleUsers sampleRoutines
     (by
       intro r h
       have hd : (createRoutine studentU
           ⟨some "A", some "Monday", some "10:00", some "Math", some 2⟩
           sampleUsers sampleRoutines).1 = .denied "Only Admins can create routines" := by
         decide
       rw [hd] at h
       exact RoutineWriteResult.noConfusion h),
   C7_failure_leaves_store_untouched.2.1 studentU 1 _ sampleUsers sampleRoutines
     (by
       intro r h
       have hd : (updateRoutine studentU 1
           ⟨some "A", some "Monday", some "10:00", some "Math", some 2⟩
           sampleUsers sampleRoutines).1 = .denied "Only Admins can update routines" := by
         decide
       rw [hd] at h
       exact RoutineWriteResult.noConfusion h),
   C7_failure_leaves_store_untouched.2.2.1 studentU 1 sampleRoutines
     (by
       intro m h
       have hd : (deleteRoutine studentU 1 sampleRoutines).1
           = .denied "Only Admins can delete routines" := by decide
       rw [hd] at h
       exact RoutineWriteResult.noConfusion h),
   C7_failure_leaves_store_untouched.2.2.2.1 studentU _ "t" []
     (by
       intro e h
       have hd : (postMarks studentU ⟨some 3, some "Math", some (.num 50)⟩ "t" []).1
           = .denied "Only Admins or Teachers can update marks" := by decide
       rw [hd] at h
       exact MarksResult.noConfusion h),
   C7_failure_leaves_store_untouched.2.2.2.2.1 ⟨3, "student@example.com", "Student", some "A"⟩
     _ sampleUsers [] (by decide),
   C7_failure_leaves_store_untouched.2.2.2.2.2.1 "sek" 0 _ sampleUsers
     (by
       intro t nu h
       have hd : (signup "sek" 0 ⟨some "admin@example.com", some "pw", some "Teacher", none⟩
           sampleUsers).1 = .invalid "User already exists" := by decide
       rw [hd] at h
       exact SignupResult.noConfusion h),
   C7_failure_leaves_store_untouched.2.2.2.2.2.2.1 adminU _ none "t" []
     (by
       intro x h
       have hd : (createDocument adminU (some ⟨"f.pdf"⟩) none "t" []).1
           = .denied "Only Teachers can upload documents" := by decide
       rw [hd] at h
       exact DocWriteResult.noConfusion h),
   C7_failure_leaves_store_untouched.2.2.2.2.2.2.2 teacherU _ none "t" []
     (by
       intro x h
       have hd : (createPolicy teacherU (some ⟨"f.pdf"⟩) none "t" []).1
           = .denied "Only Admins can upload policies" := by decide
       rw [hd] at h
       exact DocWriteResult.noConfusion h)⟩

/-- C8: with an authorized caller, `POST /marks` fails with a 400 and writes
nothing whenever the marks value is not a number in `[0,100]` or the subject
is not in the enumerated set; it stores a record only when both hold; and
both endpoints 0 and 100 are accepted. -/
theorem C8_marks_validation :
    (∀ (u : User) (b : MarksBody) (now : String) (s : List MarkEntry),
        (u.userType = "Admin" ∨ u.userType = "Teacher") →
        (¬(∃ q, b.marks = some (.num q) ∧ 0 ≤ q ∧ q ≤ 100)
          ∨ ¬(∃ subj, b.subject = some subj ∧ subj ∈ validSubjects)) →
        (∃ msg, (postMarks u b now s).1 = .invalid msg)
          ∧ (postMarks u b now s).2 = s)
  ∧ (∀ (u : User) (b : MarksBody) (now : String) (s : List MarkEntry)
        (e : MarkEntry) (s' : List MarkEntry),
        postMarks u b now s = (.created e, s') →
        b.marks = some (.num e.marks) ∧ 0 ≤ e.marks ∧ e.marks ≤ 100
          ∧ b.subject = some e.subject ∧ e.subject ∈ validSubjects)
  ∧ (∀ (u : User) (now : String) (s : List MarkEntry) (uid : Nat) (subj : String),
        (u.userType = "Admin" ∨ u.userType = "Teacher") → uid ≠ 0 →
        subj ∈ validSubjects →
        (∃ e s', postMarks u ⟨some uid, some subj, some (.num 0)⟩ now s = (.created e, s'))
          ∧ (∃ e s', postMarks u ⟨some uid, some subj, some (.num 100)⟩ now s
              = (.created e, s'))) := by
  refine ⟨?_, ?_, ?_⟩
  · intro u b now s hrole hbad
    have h1 : ¬(u.userType ≠ "Admin" ∧ u.userType ≠ "Teacher") := by tauto
    by_cases h2 : natTruthy b.userId = true ∧ strTruthy b.subject = true
        ∧ b.marks.isSome = true
    · obtain ⟨h2a, h2b, h2c⟩ := h2
      rcases hm : b.marks with _ | v
      · rw [hm] at h2c; simp at h2c
      · cases v with
        | num q =>
          by_cases h3 : q < 0 ∨ 100 < q
          · exact ⟨⟨"Marks must be a number between 0 and 100",
              by simp [postMarks, h1, h2a, h2b, hm, h3]⟩,
              by simp [postMarks, h1, h2a, h2b, hm, h3]⟩
          · push_neg at h3
            have h3' : ¬(q < 0 ∨ 100 < q) :=
              not_or_intro (not_lt.mpr h3.1) (not_lt.mpr h3.2)
            have h4 : ¬(b.subject.getD "" ∈ validSubjects) := by
              rcases hbad with hb1 | hb2
              · exact absurd ⟨q, hm, h3.1, h3.2⟩ hb1
              · exact fun hmem => hb2 ⟨b.subject.getD "", (strTruthy_some h2b).1, hmem⟩
            exact ⟨⟨String.append "Subject must be one of: "
                (String.intercalate ", " validSubjects),
              by simp [postMarks, h1, h2a, h2b, hm, h3', h4]⟩,
              by simp [postMarks, h1, h2a, h2b, hm, h3', h4]⟩
        | str v =>
          exact ⟨⟨"Marks must be a number between 0 and 100",
            by simp [postMarks, h1, h2a, h2b, hm]⟩,
            by simp [postMarks, h1, h2a, h2b, hm]⟩
        | bool v =>
          exact ⟨⟨"Marks must be a number between 0 and 100",
            by simp [postMarks, h1, h2a, h2b, hm]⟩,
            by simp [postMarks, h1, h2a, h2b, hm]⟩
        | obj v =>
          exact ⟨⟨"Marks must be a number between 0 and 100",
            by simp [postMarks, h1, h2a, h2b, hm]⟩,
            by simp [postMarks, h1, h2a, h2b, hm]⟩
    · exact ⟨⟨"userId, subject, and marks are required",
        by simp [postMarks, h1, h2]⟩, by simp [postMarks, h1, h2]⟩
  · intro u b now s e s' h
    obtain ⟨_, _, h2b, _, hsub, hmarks, hlo, hhi, hmem, _⟩ := postMarks_created h
    refine ⟨hmarks, hlo, hhi, ?_, hmem⟩
    rw [hsub]
    exact (strTruthy_some h2b).1
  · intro u now s uid subj hrole huid hsub
    have h1 : ¬(u.userType ≠ "Admin" ∧ u.userType ≠ "Teacher") := by tauto
    have h2a : natTruthy (some uid) = true := by simp [natTruthy, huid]
    have h2b : strTruthy (some subj) = true := by
      have : subj ≠ "" := by
        simp only [validSubjects, List.mem_cons, List.not_mem_nil, or_false] at hsub
        rcases hsub with rfl | rfl | rfl <;> decide
      simp [strTruthy, this]
    constructor
    · by_cases h5 : ∃ x ∈ s, marksKey uid subj x = true
      · refine ⟨⟨uid, subj, 0, calculateGrade 0, u.id, now⟩,
          (postMarks u ⟨some uid, some subj, some (.num 0)⟩ now s).2, ?_⟩
        have hres : (postMarks u ⟨some uid, some subj, some (.num 0)⟩ now s).1
            = .created ⟨uid, subj, 0, calculateGrade 0, u.id, now⟩ := by
          norm_num [postMarks, h1, h2a, h2b, hsub, h5]
        rw [← hres]
      · refine ⟨⟨uid, subj, 0, calculateGrade 0, u.id, now⟩,
          (postMarks u ⟨some uid, some subj, some (.num 0)⟩ now s).2, ?_⟩
        have hres : (postMarks u ⟨some uid, some subj, some (.num 0)⟩ now s).1
            = .created ⟨uid, subj, 0, calculateGrade 0, u.id, now⟩ := by
          norm_num [postMarks, h1, h2a, h2b, hsub, h5]
        rw [← hres]
    · by_cases h5 : ∃ x ∈ s, marksKey uid subj x = true
      · refine ⟨⟨uid, subj, 100, calculateGrade 100, u.id, now⟩,
          (postMarks u ⟨some uid, some subj, some (.num 100)⟩ now s).2, ?_⟩
        have hres : (postMarks u ⟨some uid, some subj, some (.num 100)⟩ now s).1
            = .created ⟨uid, subj, 100, calculateGrade 100, u.id, now⟩ := by
          norm_num [postMarks, h1, h2a, h2b, hsub, h5]
        rw [← hres]
      · refine ⟨⟨uid, subj, 100, calculateGrade 100, u.id, now⟩,
          (postMarks u ⟨some uid, some subj, some (.num 100)⟩ now s).2, ?_⟩
        have hres : (postMarks u ⟨some uid, some subj, some (.num 100)⟩ now s).1
            = .created ⟨uid, subj, 100, calculateGrade 100, u.id, now⟩ := by
          norm_num [postMarks, h1, h2a, h2b, hsub, h5]
        rw [← hres]

/-- Witness for C8: an out-of-range marks value is rejected without a write;
the endpoints 0 and 100 are accepted. -/
theorem C8_marks_validation_witness :
    ((∃ msg, (postMarks adminU ⟨some 3, some "Math", some (.num 101)⟩ "t" []).1
        = .invalid msg)
      ∧ (postMarks adminU ⟨some 3, some "Math", some (.num 101)⟩ "t" []).2 = [])
  ∧ ((∃ e s', postMarks adminU ⟨some 3, some "Math", some (.num 0)⟩ "t" []
        = (.created e, s'))
      ∧ (∃ e s', postMarks adminU ⟨some 3, some "Math", some (.num 100)⟩ "t" []
        = (.created e, s'))) :=
  ⟨C8_marks_validation.1 adminU ⟨some 3, some "Math", some (.num 101)⟩ "t" []
     (Or.inl (by decide))
     (Or.inl (by
       intro ⟨q, hq, _, hle⟩
       cases hq
       exact absurd hle (by norm_num))),
   C8_marks_validation.2.2 adminU "t" [] 3 "Math" (Or.inl (by decide))
     (by decide) (by decide)⟩

/-- `updateFirst` preserves length. -/
theorem length_updateFirst (p : α → Bool) (f : α → α) :
    ∀ l : List α, (updateFirst p f l).length = l.length := by
  intro l
  induction l with
  | nil => rfl
  | cons a as ih =>
    by_cases hp : p a = true
    · simp [updateFirst, hp]
    · simp [updateFirst, hp, ih]

/-- Replacing the first `k`-match by `e` (itself a `k`-match) in a list with
at most one `k`-match leaves `[e]` as the `k`-matches. -/
theorem filter_updateFirst_self (k : α → Bool) (e : α) (he : k e = true) :
    ∀ l : List α, l.any k = true → (l.filter k).length ≤ 1 →
      (updateFirst k (fun _ => e) l).filter k = [e] := by
  intro l
  induction l with
  | nil => intro hany; simp at hany
  | cons a as ih =>
    intro hany hle
    by_cases hp : k a = true
    · have hnil : as.filter k = [] := by
        rw [List.filter_cons_of_pos hp] at hle
        simp only [List.length_cons] at hle
        exact List.length_eq_zero.mp (by omega)
      simp [updateFirst, hp, he, hnil]
    · have hany' : as.any k = true := by
        rcases List.any_eq_true.mp hany with ⟨x, hx, hkx⟩
        rcases List.mem_cons.mp hx with rfl | hx'
        · exact absurd hkx hp
        · exact List.any_eq_true.mpr ⟨x, hx', hkx⟩
      have hle' : (as.filter k).length ≤ 1 := by
        rwa [List.filter_cons_of_neg hp] at hle
      simp [updateFirst, hp, List.filter_cons_of_neg hp, ih hany' hle']

/-- Replacing a `k`-match by `e` cannot increase the number of `k'`-matches
when `e` is not a `k'`-match. -/
theorem length_filter_updateFirst_le (k' k : α → Bool) (e : α) (he : k' e = false) :
    ∀ l : List α,
      ((updateFirst k (fun _ => e) l).filter k').length ≤ (l.filter k').length := by
  intro l
  induction l with
  | nil => simp [updateFirst]
  | cons a as ih =>
    by_cases hp : k a = true
    · by_cases hq : k' a = true
      · simp [updateFirst, hp, he, List.filter_cons_of_pos hq]
      · simp [updateFirst, hp, he, List.filter_cons_of_neg hq]
    · by_cases hq : k' a = true
      · simpa [updateFirst, hp, List.filter_cons_of_pos hq] using ih
      · simpa [updateFirst, hp, List.filter_cons_of_neg hq] using ih

/-- `marksKey` unfolded. -/
theorem marksKey_eq_true (uid : Nat) (subj : String) (m : MarkEntry) :
    marksKey uid subj m = true ↔ m.userId = uid ∧ m.subject = subj := by
  simp [marksKey, Bool.and_eq_true, beq_iff_eq]

/-- At most one stored mark per `(userId, subject)` pair. -/
def marksKeyUnique (l : List MarkEntry) : Prop :=
  ∀ uid subj, (l.filter (marksKey uid subj)).length ≤ 1

/-- C3: starting from a collection with at most one record per
`(userId, subject)` pair, a successful marks submission leaves exactly one
record with the submitted pair — the submitted entry itself — keeps the
per-pair uniqueness invariant, and appends only when the pair was absent
(replacing in place when it was present). -/
theorem C3_marks_upsert_in_place (u : User) (b : MarksBody) (now : String)
    (s : List MarkEntry) (e : MarkEntry) (s' : List MarkEntry)
    (hu : marksKeyUnique s) (h : postMarks u b now s = (.created e, s')) :
    s'.filter (marksKey e.userId e.subject) = [e]
  ∧ marksKeyUnique s'
  ∧ s'.length = (if s.any (marksKey e.userId e.subject) = true
      then s.length else s.length + 1) := by
  obtain ⟨_, _, _, _, _, _, _, _, _, _, _, _, hs⟩ := postMarks_created h
  have hke : marksKey e.userId e.subject e = true := by
    rw [marksKey_eq_true]; exact ⟨rfl, rfl⟩
  have hfun : ∀ uid subj, marksKey uid subj e = true →
      marksKey uid subj = marksKey e.userId e.subject := by
    intro uid subj hk
    obtain ⟨h1, h2⟩ := (marksKey_eq_true uid subj e).mp hk
    rw [← h1, ← h2]
  by_cases hany : s.any (marksKey e.userId e.subject) = true
  · rw [if_pos hany] at hs
    subst hs
    refine ⟨filter_updateFirst_self _ e hke s hany (hu e.userId e.subject), ?_, ?_⟩
    · intro uid subj
      by_cases hk : marksKey uid subj e = true
      · rw [hfun uid subj hk,
          filter_updateFirst_self _ e hke s hany (hu e.userId e.subject)]
        simp
      · calc ((updateFirst (marksKey e.userId e.subject) (fun _ => e) s).filter
              (marksKey uid subj)).length
            ≤ (s.filter (marksKey uid subj)).length :=
              length_filter_updateFirst_le _ _ e (Bool.not_eq_true _ ▸ hk) s
          _ ≤ 1 := hu uid subj
    · rw [if_pos hany, length_updateFirst]
  · rw [if_neg hany] at hs
    subst hs
    have hnil : s.filter (marksKey e.userId e.subject) = [] :=
      List.filter_eq_nil.mpr fun a ha =>
        by simpa using (List.any_eq_false.mp (Bool.not_eq_true _ ▸ hany)) a ha
    refine ⟨?_, ?_, ?_⟩
    · rw [List.filter_append, hnil]
      simp [hke]
    · intro uid subj
      rw [List.filter_append]
      by_cases hk : marksKey uid subj e = true
      · rw [hfun uid subj hk, hnil]
        simp [hke]
      · have : ([e].filter (marksKey uid subj)) = [] := by
          simp [List.filter_eq_nil, hk]
        rw [this, List.append_nil]
        exact hu uid subj
    · rw [if_neg hany]
      simp

/-- Witness for C3 at a concrete two-submission run: the second submission
for the pair (7, Math) overwrites the first in place. -/
theorem C3_marks_upsert_in_place_witness :
    ([(⟨7, "Math", 95, "A", 1, "t2"⟩ : MarkEntry)].filter
        (marksKey 7 "Math") = [⟨7, "Math", 95, "A", 1, "t2"⟩])
  ∧ marksKeyUnique [(⟨7, "Math", 95, "A", 1, "t2"⟩ : MarkEntry)]
  ∧ ([(⟨7, "Math", 95, "A", 1, "t2"⟩ : MarkEntry)].length =
      if [(⟨7, "Math", 80, "B", 1, "t1"⟩ : MarkEntry)].any (marksKey 7 "Math") = true
      then [(⟨7, "Math", 80, "B", 1, "t1"⟩ : MarkEntry)].length
      else [(⟨7, "Math", 80, "B", 1, "t1"⟩ : MarkEntry)].length + 1) := by
  have h := C3_marks_upsert_in_place adminU ⟨some 7, some "Math", some (.num 95)⟩ "t2"
    [⟨7, "Math", 80, "B", 1, "t1"⟩] ⟨7, "Math", 95, "A", 1, "t2"⟩
    [⟨7, "Math", 95, "A", 1, "t2"⟩]
    (by intro uid subj; by_cases h7 : marksKey uid subj ⟨7, "Math", 80, "B", 1, "t1"⟩ = true
          <;> simp [List.filter, h7])
    (by decide)
  exact h

/-- C5 counterexample, in two parts. First, a successful attendance creation
(Admin targeting the stored Student, empty collection) stores the record
`{userId, name, userType, attendance}` — its field list carries no "id" key
at all, so the create did not assign the identifier `length + 1 = 1`.
Second, the `length + 1` identifiers are not unconditionally unique: after
deleting routine 1 from the two-routine collection, the next create computes
id `1 + 1 = 2` and appends it next to the surviving routine that already has
id 2, leaving two routines with the same identifier. -/
theorem C5_counterexample :
    ((postAttendance ⟨1, "admin@example.com", "Admin", none⟩
        ⟨some 3, some [("Monday", .bool true)]⟩ sampleUsers []).1 = .created
      ∧ (postAttendance ⟨1, "admin@example.com", "Admin", none⟩
          ⟨some 3, some [("Monday", .bool true)]⟩ sampleUsers []).2 =
        [{ userId := 3, name := "student@example.com", userType := "Student",
           attendance := [("Monday", .bool true)] }]
      ∧ (AttendanceRecord.toFields
          { userId := 3, name := "student@example.com", userType := "Student",
            attendance := [("Monday", .bool true)] }).lookup "id" = none)
  ∧ ((deleteRoutine adminU 1 sampleRoutines).1 = .deleted "Routine deleted"
      ∧ (deleteRoutine adminU 1 sampleRoutines).2
          = [⟨2, "B", "Tuesday", "11:00", "Science", 4⟩]
      ∧ (createRoutine adminU ⟨some "A", some "Monday", some "10:00", some "Math", some 2⟩
          sampleUsers [⟨2, "B", "Tuesday", "11:00", "Science", 4⟩]).1
          = .created ⟨2, "A", "Monday", "10:00", "Math", 2⟩
      ∧ (createRoutine adminU ⟨some "A", some "Monday", some "10:00", some "Math", some 2⟩
          sampleUsers [⟨2, "B", "Tuesday", "11:00", "Science", 4⟩]).2
          = [⟨2, "B", "Tuesday", "11:00", "Science", 4⟩,
             ⟨2, "A", "Monday", "10:00", "Math", 2⟩]
      ∧ ¬ (([(⟨2, "B", "Tuesday", "11:00", "Science", 4⟩ : Routine),
             ⟨2, "A", "Monday", "10:00", "Math", 2⟩].map Routine.id).Nodup)) :=
  ⟨⟨by decide, rfl, rfl⟩, by decide, by decide, by decide, by decide, by decide⟩

/-- A record whose identifier is one more than the collection length is fresh
whenever the existing identifiers are bounded by the collection length, and
the bound is maintained by the append. -/
theorem freshId_append {α : Type} (f : α → Nat) (l : List α) (a : α)
    (ha : f a = l.length + 1) (hbound : ∀ x ∈ l, f x ≤ l.length) :
    f a ∉ l.map f ∧ ∀ x ∈ l ++ [a], f x ≤ (l ++ [a]).length := by
  constructor
  · intro hmem
    obtain ⟨x, hx, hxf⟩ := List.mem_map.mp hmem
    have := hbound x hx
    omega
  · intro x hx
    rw [List.length_append, List.length_singleton]
    rcases List.mem_append.mp hx with hx' | hx'
    · have := hbound x hx'
      omega
    · rw [List.mem_singleton.mp hx', ha]

/-- C5 (amended): creates on accounts, routines, documents and policies
assign id = collection length + 1, and for each of these four collections
that id is fresh — and stays bounded — whenever the existing ids are bounded
by the collection length (true in creation-only histories; deletion breaks
it, reusing an id as in the counterexample); attendance and marks records
carry no id field at all, being keyed by `userId` and `(userId, subject)`. -/
theorem C5_id_assignment :
    (∀ (secret : String) (now : Nat) (b : SignupBody) (users : List User)
        (t : Token) (nu : User) (users' : List User),
        signup secret now b users = (.created t nu, users') →
        nu.id = users.length + 1)
  ∧ (∀ (u : User) (b : RoutineBody) (us : List User) (rs : List Routine)
        (r : Routine) (rs' : List Routine),
        createRoutine u b us rs = (.created r, rs') → r.id = rs.length + 1)
  ∧ (∀ (u : User) (f : Option FileInfo) (d : Option String) (now : String)
        (docs : List Document) (x : Document) (docs' : List Document),
        createDocument u f d now docs = (.created x, docs') →
        x.id = docs.length + 1)
  ∧ (∀ (u : User) (f : Option FileInfo) (d : Option String) (now : String)
        (ps : List Document) (x : Document) (ps' : List Document),
        createPolicy u f d now ps = (.created x, ps') → x.id = ps.length + 1)
  ∧ (∀ r : AttendanceRecord, (AttendanceRecord.toFields r).lookup "id" = none)
  ∧ (∀ e : MarkEntry, (MarkEntry.toFields e).lookup "id" = none)
  ∧ (∀ (secret : String) (now : Nat) (b : SignupBody) (users : List User)
        (t : Token) (nu : User) (users' : List User),
        (∀ x ∈ users, x.id ≤ users.length) →
        signup secret now b users = (.created t nu, users') →
        nu.id ∉ users.map User.id ∧ ∀ x ∈ users', x.id ≤ users'.length)
  ∧ (∀ (u : User) (b : RoutineBody) (us : List User) (rs : List Routine)
        (r : Routine) (rs' : List Routine),
        (∀ x ∈ rs, x.id ≤ rs.length) →
        createRoutine u b us rs = (.created r, rs') →
        r.id ∉ rs.map Routine.id ∧ ∀ x ∈ rs', x.id ≤ rs'.length)
  ∧ (∀ (u : User) (f : Option FileInfo) (d : Option String) (now : String)
        (docs : List Document) (x : Document) (docs' : List Document),
        (∀ y ∈ docs, y.id ≤ docs.length) →
        createDocument u f d now docs = (.created x, docs') →
        x.id ∉ docs.map Document.id ∧ ∀ y ∈ docs', y.id ≤ docs'.length)
  ∧ (∀ (u : User) (f : Option FileInfo) (d : Option String) (now : String)
        (ps : List Document) (x : Document) (ps' : List Document),
        (∀ y ∈ ps, y.id ≤ ps.length) →
        createPolicy u f d now ps = (.created x, ps') →
        x.id ∉ ps.map Document.id ∧ ∀ y ∈ ps', y.id ≤ ps'.length) := by
  refine ⟨?_, ?_, ?_, ?_, ?_, ?_, ?_, ?_, ?_, ?_⟩
  · intro secret now b users t nu users' h
    exact (signup_created h).2.2.2.1
  · intro u b us rs r rs' h
    rw [(createRoutine_created h).2.2.2.1]
  · intro u f d now docs x docs' h
    exact (createDocument_created h).2.2.1
  · intro u f d now ps x ps' h
    exact (createPolicy_created h).2.2.1
  · intro r
    rfl
  · intro e
    rfl
  · intro secret now b users t nu users' hbound h
    obtain ⟨_, _, _, hid, _, _, _, _, hu, _, _, _⟩ := signup_created h
    subst hu
    exact freshId_append User.id users nu hid hbound
  · intro u b us rs r rs' hbound h
    obtain ⟨_, _, _, hr, hs⟩ := createRoutine_created h
    have hid : r.id = rs.length + 1 := by rw [hr]
    subst hs
    exact freshId_append Routine.id rs r hid hbound
  · intro u f d now docs x docs' hbound h
    obtain ⟨_, _, hid, _, _, _, hs⟩ := createDocument_created h
    subst hs
    exact freshId_append Document.id docs x hid hbound
  · intro u f d now ps x ps' hbound h
    obtain ⟨_, _, hid, _, _, _, hs⟩ := createPolicy_created h
    subst hs
    exact freshId_append Document.id ps x hid hbound

/-- Witness for C5 at concrete creations: ids 4, 3, 1, 1 are assigned for a
signup, a routine, a document and a policy, and each is fresh for its
bounded-id collection. -/
theorem C5_id_assignment_witness :
    ((⟨4, "new@example.com", bcryptHash "pw", "Teacher", none⟩ : User).id
        = sampleUsers.length + 1)
  ∧ ((⟨3, "A", "Monday", "10:00", "Math", 2⟩ : Routine).id = sampleRoutines.length + 1)
  ∧ ((⟨1, "f.pdf", 2, "t", ""⟩ : Document).id = ([] : List Document).length + 1)
  ∧ ((⟨1, "g.pdf", 1, "t", ""⟩ : Document).id = ([] : List Document).length + 1)
  ∧ (AttendanceRecord.toFields
      { userId := 3, name := "student@example.com", userType := "Student",
        attendance := [] }).lookup "id" = none
  ∧ (MarkEntry.toFields ⟨7, "Math", 95, "A", 1, "t"⟩).lookup "id" = none
  ∧ ((⟨4, "new@example.com", bcryptHash "pw", "Teacher", none⟩ : User).id
        ∉ sampleUsers.map User.id
      ∧ ∀ x ∈ sampleUsers
            ++ [(⟨4, "new@example.com", bcryptHash "pw", "Teacher", none⟩ : User)],
          x.id ≤ (sampleUsers
            ++ [(⟨4, "new@example.com", bcryptHash "pw", "Teacher", none⟩ : User)]).length)
  ∧ ((⟨3, "A", "Monday", "10:00", "Math", 2⟩ : Routine).id
        ∉ sampleRoutines.map Routine.id
      ∧ ∀ x ∈ sampleRoutines ++ [(⟨3, "A", "Monday", "10:00", "Math", 2⟩ : Routine)],
          x.id ≤ (sampleRoutines
            ++ [(⟨3, "A", "Monday", "10:00", "Math", 2⟩ : Routine)]).length)
  ∧ ((⟨1, "f.pdf", 2, "t", ""⟩ : Document).id ∉ ([] : List Document).map Document.id
      ∧ ∀ y ∈ [(⟨1, "f.pdf", 2, "t", ""⟩ : Document)],
          y.id ≤ [(⟨1, "f.pdf", 2, "t", ""⟩ : Document)].length)
  ∧ ((⟨1, "g.pdf", 1, "t", ""⟩ : Document).id ∉ ([] : List Document).map Document.id
      ∧ ∀ y ∈ [(⟨1, "g.pdf", 1, "t", ""⟩ : Document)],
          y.id ≤ [(⟨1, "g.pdf", 1, "t", ""⟩ : Document)].length) :=
  by
  refine ⟨?_, ?_, ?_, ?_, ?_, ?_, ?_, ?_, ?_, ?_⟩
  · exact C5_id_assignment.1 "sek" 0
      ⟨some "new@example.com", some "pw", some "Teacher", none⟩ sampleUsers
      ⟨⟨4, "new@example.com", "Teacher", none⟩, "sek", 3600⟩
      ⟨4, "new@example.com", bcryptHash "pw", "Teacher", none⟩
      (sampleUsers ++ [⟨4, "new@example.com", bcryptHash "pw", "Teacher", none⟩]) (by decide)
  · exact C5_id_assignment.2.1 adminU
      ⟨some "A", some "Monday", some "10:00", some "Math", some 2⟩
      sampleUsers sampleRoutines ⟨3, "A", "Monday", "10:00", "Math", 2⟩
      (sampleRoutines ++ [⟨3, "A", "Monday", "10:00", "Math", 2⟩]) (by decide)
  · exact C5_id_assignment.2.2.1 teacherU (some ⟨"f.pdf"⟩) none "t" []
      ⟨1, "f.pdf", 2, "t", ""⟩ [⟨1, "f.pdf", 2, "t", ""⟩] (by decide)
  · exact C5_id_assignment.2.2.2.1 adminU (some ⟨"g.pdf"⟩) none "t" []
      ⟨1, "g.pdf", 1, "t", ""⟩ [⟨1, "g.pdf", 1, "t", ""⟩] (by decide)
  · exact C5_id_assignment.2.2.2.2.1
      { userId := 3, name := "student@example.com", userType := "Student", attendance := [] }
  · exact C5_id_assignment.2.2.2.2.2.1 ⟨7, "Math", 95, "A", 1, "t"⟩
  · exact C5_id_assignment.2.2.2.2.2.2.1 "sek" 0
      ⟨some "new@example.com", some "pw", some "Teacher", none⟩ sampleUsers
      ⟨⟨4, "new@example.com", "Teacher", none⟩, "sek", 3600⟩
      ⟨4, "new@example.com", bcryptHash "pw", "Teacher", none⟩
      (sampleUsers ++ [⟨4, "new@example.com", bcryptHash "pw", "Teacher", none⟩])
      (by decide) (by decide)
  · exact C5_id_assignment.2.2.2.2.2.2.2.1 adminU
      ⟨some "A", some "Monday", some "10:00", some "Math", some 2⟩
      sampleUsers sampleRoutines ⟨3, "A", "Monday", "10:00", "Math", 2⟩
      (sampleRoutines ++ [⟨3, "A", "Monday", "10:00", "Math", 2⟩]) (by decide) (by decide)
  · exact C5_id_assignment.2.2.2.2.2.2.2.2.1 teacherU (some ⟨"f.pdf"⟩) none "t" []
      ⟨1, "f.pdf", 2, "t", ""⟩ [⟨1, "f.pdf", 2, "t", ""⟩] (by decide) (by decide)
  · exact C5_id_assignment.2.2.2.2.2.2.2.2.2 adminU (some ⟨"g.pdf"⟩) none "t" []
      ⟨1, "g.pdf", 1, "t", ""⟩ [⟨1, "g.pdf", 1, "t", ""⟩] (by decide) (by decide)

/-- C6 counterexample: a token whose signature matches the secret and whose
expiry has not passed (`jwtVerify` succeeds) is nonetheless rejected by the
shared middleware when its subject id is not in the stored users collection
— so validity there does depend on a server-side lookup of stored state. -/
theorem C6_counterexample :
    jwtVerify "s3cret" 0 ⟨⟨5, "ghost@example.com", "Teacher", none⟩, "s3cret", 1000⟩
      = some ⟨5, "ghost@example.com", "Teacher", none⟩
  ∧ middlewareAuthenticate "s3cret" 0
      (some ⟨⟨5, "ghost@example.com", "Teacher", none⟩, "s3cret", 1000⟩) []
      = .invalid "Invalid token" :=
  ⟨by decide, by decide⟩

/-- C6 (amended): the attendance route's local authenticate is binary and
stateless — it succeeds exactly when the signature matches and the expiry
has not passed, and every failure is the uniform 401; the shared middleware
used by the other routes additionally requires the token's subject id to
exist in the stored users collection (a server-side lookup), answering with
the stored user, and rejects a valid token with an unknown id through the
same uniform "Invalid token" outcome. -/
theorem C6_token_verification :
    (∀ (secret : String) (now : Nat) (t : Token),
        attendanceAuthenticate secret now (some t) = .ok t.claims ↔
          (t.secret = secret ∧ now < t.exp))
  ∧ (∀ (secret : String) (now : Nat),
        attendanceAuthenticate secret now none = .noToken "No token provided")
  ∧ (∀ (secret : String) (now : Nat) (t : Token), jwtVerify secret now t = none →
        attendanceAuthenticate secret now (some t) = .invalid "Invalid token")
  ∧ (∀ (secret : String) (now : Nat) (t : Token) (users : List User) (u : User),
        middlewareAuthenticate secret now (some t) users = .ok u ↔
          ((t.secret = secret ∧ now < t.exp)
            ∧ users.find? (fun x => x.id == t.claims.id) = some u))
  ∧ (∀ (secret : String) (now : Nat) (t : Token) (users : List User),
        jwtVerify secret now t = none →
        middlewareAuthenticate secret now (some t) users = .invalid "Invalid token")
  ∧ (∀ (secret : String) (now : Nat) (t : Token) (users : List User),
        jwtVerify secret now t = some t.claims →
        users.find? (fun x => x.id == t.claims.id) = none →
        middlewareAuthenticate secret now (some t) users = .invalid "Invalid token") := by
  refine ⟨?_, ?_, ?_, ?_, ?_, ?_⟩
  · intro secret now t
    by_cases hc : t.secret = secret ∧ now < t.exp
    · simp [attendanceAuthenticate, jwtVerify, hc]
    · simp [attendanceAuthenticate, jwtVerify, hc]
  · intro secret now
    rfl
  · intro secret now t hv
    simp [attendanceAuthenticate, hv]
  · intro secret now t users u
    by_cases hc : t.secret = secret ∧ now < t.exp
    · rcases hf : users.find? (fun x => x.id == t.claims.id) with _ | u0
      · simp [middlewareAuthenticate, jwtVerify, hc, hf]
      · simp [middlewareAuthenticate, jwtVerify, hc, hf, eq_comm]
    · simp [middlewareAuthenticate, jwtVerify, hc]
  · intro secret now t users hv
    simp [middlewareAuthenticate, hv]
  · intro secret now t users hv hf
    simp [middlewareAuthenticate, hv, hf]

/-- Witness for C6 at a concrete secret, clock and token. -/
theorem C6_token_verification_witness :
    attendanceAuthenticate "sek" 0
      (some ⟨⟨3, "student@example.com", "Student", some "A"⟩, "sek", 3600⟩)
      = .ok ⟨3, "student@example.com", "Student", some "A"⟩
  ∧ attendanceAuthenticate "sek" 5000
      (some ⟨⟨3, "student@example.com", "Student", some "A"⟩, "sek", 3600⟩)
      = .invalid "Invalid token"
  ∧ middlewareAuthenticate "sek" 0
      (some ⟨⟨3, "student@example.com", "Student", some "A"⟩, "sek", 3600⟩) sampleUsers
      = .ok studentU
  ∧ middlewareAuthenticate "sek" 0
      (some ⟨⟨9, "ghost@example.com", "Teacher", none⟩, "sek", 3600⟩) sampleUsers
      = .invalid "Invalid token" :=
  ⟨(C6_token_verification.1 "sek" 0
      ⟨⟨3, "student@example.com", "Student", some "A"⟩, "sek", 3600⟩).mpr
      ⟨rfl, by norm_num⟩,
   C6_token_verification.2.2.1 "sek" 5000
     ⟨⟨3, "student@example.com", "Student", some "A"⟩, "sek", 3600⟩ (by decide),
   (C6_token_verification.2.2.2.1 "sek" 0
      ⟨⟨3, "student@example.com", "Student", some "A"⟩, "sek", 3600⟩ sampleUsers
      studentU).mpr ⟨⟨rfl, by norm_num⟩, by decide⟩,
   C6_token_verification.2.2.2.2.2 "sek" 0
     ⟨⟨9, "ghost@example.com", "Teacher", none⟩, "sek", 3600⟩ sampleUsers
     (by decide) (by decide)⟩

/-- C9 counterexample: the stored Student (section "A") signs in with
correct credentials; the minted token's claims carry role Student but no
`section` claim — contradicting "a Student who signs in receives a token
that includes their section". -/
theorem C9_counterexample :
    signin "sek" 0 (some "student@example.com") (some "pw") sampleUsers
      = .ok ⟨⟨3, "student@example.com", "Student", none⟩, "sek", 3600⟩
  ∧ (⟨3, "student@example.com", "Student", none⟩ : Claims).userType = "Student"
  ∧ (⟨3, "student@example.com", "Student", none⟩ : Claims).sec = none
  ∧ studentU.sec = some "A" :=
  ⟨by decide, rfl, rfl, rfl⟩

/-- C9 (amended): a signup token carries `{id, email, role}` of the created
account plus a non-empty `section` claim exactly when the account is a
Student, with a 1-hour expiry; a signin token carries `{id, email, role}` of
the stored account and never a `section` claim — so a Student who signs in
receives a token without their section. -/
theorem C9_token_claims :
    (∀ (secret : String) (now : Nat) (b : SignupBody) (users : List User)
        (t : Token) (nu : User) (users' : List User),
        signup secret now b users = (.created t nu, users') →
        t.claims.id = nu.id ∧ t.claims.email = nu.email
          ∧ t.claims.userType = nu.userType ∧ t.claims.sec = nu.sec
          ∧ (nu.userType = "Student" → ∃ s, nu.sec = some s ∧ s ≠ "")
          ∧ (nu.userType ≠ "Student" → nu.sec = none)
          ∧ t.exp = now + 3600 ∧ t.secret = secret)
  ∧ (∀ (secret : String) (now : Nat) (e p : Option String) (users : List User)
        (t : Token),
        signin secret now e p users = .ok t →
        t.claims.sec = none ∧ t.exp = now + 3600 ∧ t.secret = secret
          ∧ ∃ u ∈ users, t.claims = ⟨u.id, u.email, u.userType, none⟩) := by
  constructor
  · intro secret now b users t nu users' h
    obtain ⟨_, _, _, _, _, hty, hsec, ht, _, hstu, _, _⟩ := signup_created h
    subst ht
    refine ⟨rfl, rfl, rfl, rfl, ?_, ?_, rfl, rfl⟩
    · intro hs
      obtain ⟨hbs, hbne⟩ := strTruthy_some (hstu hs)
      rw [hsec, if_pos (hty ▸ hs), hbs]
      exact ⟨b.sec.getD "", rfl, hbne⟩
    · intro hs
      rw [hsec, if_neg (fun hc => hs (hty.trans hc))]
  · intro secret now e p users t h
    by_cases h1 : strTruthy e = true ∧ strTruthy p = true
    · obtain ⟨h1a, h1b⟩ := h1
      rcases hf : users.find? (fun u => lowerStr u.email == lowerStr (e.getD "")) with _ | u0
      · simp [signin, h1a, h1b, hf] at h
      · by_cases hc : bcryptCompare (p.getD "") u0.password = true
        · simp [signin, h1a, h1b, hf, hc] at h
          subst h
          exact ⟨rfl, rfl, rfl, u0, List.mem_of_find?_eq_some hf, rfl⟩
        · simp [signin, h1a, h1b, hf, hc] at h
    · simp [signin, h1] at h

/-- Witness for C9: a Student signup token carries section "A"; the same
Student's signin token carries no section. -/
theorem C9_token_claims_witness :
    ((⟨⟨4, "new@example.com", "Student", some "B"⟩, "sek", 3600⟩ : Token).claims.sec
        = (⟨4, "new@example.com", bcryptHash "pw", "Student", some "B"⟩ : User).sec
      ∧ ∃ s, (⟨4, "new@example.com", bcryptHash "pw", "Student", some "B"⟩ : User).sec
          = some s ∧ s ≠ "")
  ∧ ((⟨⟨3, "student@example.com", "Student", none⟩, "sek", 3600⟩ : Token).claims.sec = none
      ∧ ∃ u ∈ sampleUsers,
          (⟨⟨3, "student@example.com", "Student", none⟩, "sek", 3600⟩ : Token).claims
            = ⟨u.id, u.email, u.userType, none⟩) := by
  constructor
  · have h := C9_token_claims.1 "sek" 0
      ⟨some "new@example.com", some "pw", some "Student", some "B"⟩ sampleUsers
      ⟨⟨4, "new@example.com", "Student", some "B"⟩, "sek", 3600⟩
      ⟨4, "new@example.com", bcryptHash "pw", "Student", some "B"⟩
      (sampleUsers ++ [⟨4, "new@example.com", bcryptHash "pw", "Student", some "B"⟩])
      (by decide)
    exact ⟨h.2.2.2.1, h.2.2.2.2.1 rfl⟩
  · have h := C9_token_claims.2 "sek" 0 (some "student@example.com") (some "pw")
      sampleUsers ⟨⟨3, "student@example.com", "Student", none⟩, "sek", 3600⟩ (by decide)
    exact ⟨h.1, h.2.2.2⟩

end LittleStar
